import Mathlib

/-!
# Verification of the groundwater-report ETL pipeline

A shallow embedding, in Lean 4, of the data model and operations of the
groundwater-assessment ETL/normalisation pipeline (the Python scripts
`state_report_etl.py`, `central_annexure_attribute_etl.py`,
`semantic_chunker.py` and `unified_dataset_generator_optimized.py`).

Modelling conventions:
* Python numbers (int/float cells) are modelled as rationals (`ℚ`); every
  numeric literal appearing in the claims is exactly representable.
* A raw spreadsheet cell is a `Value`: Python `None`, a string, or a number.
  `openpyxl` returns `None` for cells beyond the populated range, so an
  out-of-range index is modelled as `Value.none` (the scripts' explicit
  `if idx < len(row) else default` guards coincide with coercing `None`).
* `float(str)` follows the CPython grammar: `inf`/`infinity`/`nan`
  keywords, PEP-515 digit-group underscores, sign, mantissa and exponent.
  Its result is a `PyFloat` (NaN, a signed infinity, or a finite value as
  an exact rational); a parse failure is a raised
  `ValueError`/`TypeError`, modelled as `Option.none` where the caller
  catches it. Functions that can end in an UNCAUGHT exception (the raw
  `int(float(...))` serial path of the state-report decoder) return a
  `PyResult`, whose `raise` constructor is the propagating exception.
* Record fields are rationals, so the `safe_float` coercions represent the
  pathological non-finite `float()` results by the coercion default (see
  `finOrD`); the raw `float()` call sites, where non-finite values change
  control flow, work on `PyFloat` directly.
* MD5 is embedded concretely (message padding, the 64-round compression
  function and hex rendering), so identifiers can be computed inside Lean.
-/

set_option maxRecDepth 1600

namespace GW

/-- Decidable equality on `ℚ` by comparing the `num`/`den` projections.
The derived structure `decEq` recurses deeply when evaluated by `decide`;
this instance reduces shallowly on concrete rationals. -/
instance (priority := 2000) ratDecEqFast : DecidableEq ℚ := fun a b =>
  if h : a.num = b.num ∧ a.den = b.den then
    isTrue (by rcases a with ⟨n, d, h1, h2⟩; rcases b with ⟨n2, d2, h3, h4⟩; simp_all)
  else isFalse (fun he => h (by subst he; exact ⟨rfl, rfl⟩))

/-- A raw spreadsheet cell as seen by the ETL scripts: Python `None`,
a string cell, or a numeric (int/float) cell modelled as a rational. -/
inductive Value where
  | none
  | str (s : String)
  | num (q : ℚ)
deriving DecidableEq

/-- Python truthiness of a cell value (`if cell:`): `None`, `""` and `0`
are falsy, everything else truthy. -/
def Value.truthy : Value → Bool
  | .none => false
  | .str s => s ≠ ""
  | .num q => q ≠ 0

/-- Whitespace for `str.strip()` purposes (space, tab, CR, LF — the forms
occurring in spreadsheet cells). -/
def isWS (c : Char) : Bool := c = ' ' || c = '\t' || c = '\n' || c = '\r'

/-- Strip whitespace from both ends of a character list. -/
def trimChars (cs : List Char) : List Char :=
  ((cs.dropWhile isWS).reverse.dropWhile isWS).reverse

/-- Python `str.strip()` (structural implementation, so that concrete
identifier computations reduce inside the kernel). -/
def pyStrip (s : String) : String := ⟨trimChars s.data⟩

/-- ASCII lower-casing, modelling `str.lower()` on the ASCII data the
scripts compare against. -/
def pyLower (s : String) : String := ⟨s.data.map Char.toLower⟩

/-- ASCII upper-casing, modelling `str.upper()`. -/
def pyUpper (s : String) : String := ⟨s.data.map Char.toUpper⟩

/-- Python `s.replace(",", "")`: removing every comma (the only use of
`str.replace` in the scripts has a one-character pattern and an empty
replacement, which is exactly a filter). -/
def stripCommas (s : String) : String := ⟨s.data.filter (fun c => c ≠ ',')⟩

/-- `pat in hay` on Python strings: some contiguous run of `hay` equals
`pat`. Auxiliary prefix test. -/
def prefixChars : List Char → List Char → Bool
  | [], _ => true
  | _ :: _, [] => false
  | a :: as, b :: bs => a == b && prefixChars as bs

/-- `pat in hay` on Python strings, over character lists. -/
def containsChars (pat : List Char) : List Char → Bool
  | [] => prefixChars pat []
  | b :: bs => prefixChars pat (b :: bs) || containsChars pat bs

/-- Python `pat in hay` for strings. -/
def strIn (pat hay : String) : Bool := containsChars pat.data hay.data

/-- Python `str()` of a cell. Numeric cells render as the integer numeral
when integral (an int cell); the rendering of a non-integral numeral is a
stand-in, since the scripts only ever test `str(cell)` for membership in
literal token sets (no such token contains a digit other than `"1"`, which
only a `den = 1` cell can produce) and for an alphabetic marker substring. -/
def Value.pyStr : Value → String
  | .none => "None"
  | .str s => s
  | .num q => if q.den = 1 then toString q.num else toString q.num ++ "." ++ toString q.den

/-- The numeric value of a digit string (most significant digit first). -/
def digitsVal (cs : List Char) : ℕ :=
  cs.foldl (fun a c => 10 * a + (c.toNat - '0'.toNat)) 0

/-- Python `int()` applied to a finite float: truncation toward zero. -/
def pyInt (q : ℚ) : ℤ := Int.tdiv q.num (q.den : ℤ)

/-- A CPython `float` value as producible by `float(str)`: NaN, a signed
infinity, or a finite value (represented exactly as a rational). -/
inductive PyFloat where
  | nan
  | inf (neg : Bool)
  | fin (q : ℚ)
deriving DecidableEq

/-- Python truthiness of a float (`bool(f)`): only `0.0` is falsy (`nan`
and the infinities are truthy). -/
def PyFloat.truthy : PyFloat → Bool
  | .fin q => q ≠ 0
  | _ => true

/-- The IEEE comparison `f < 1` used by the serial checks: every comparison
with `nan` is `False`, `inf < 1` is `False`, `-inf < 1` is `True`. -/
def PyFloat.ltOne : PyFloat → Bool
  | .nan => false
  | .inf neg => neg
  | .fin q => q < 1

/-- Python `int(f)`: truncation toward zero for finite floats; `int(nan)`
raises `ValueError` and `int(±inf)` raises `OverflowError`, both modelled
as `Option.none`. -/
def PyFloat.toInt : PyFloat → Option ℤ
  | .fin q => Option.some (pyInt q)
  | _ => Option.none

/-- Scan for PEP-515 digit-group underscores: every `_` must sit directly
between two digits (CPython checks this over the whole string and then
strips the underscores before converting). `prev` is the preceding
character. -/
def uScan : Char → List Char → Bool
  | _, [] => true
  | prev, '_' :: rest =>
    (prev.isDigit && match rest with
      | d :: _ => d.isDigit
      | [] => false) && uScan '_' rest
  | _, c :: rest => uScan c rest

/-- Every underscore of the string sits between two digits. -/
def underscoresOK (cs : List Char) : Bool := uScan ' ' cs

/-- Remove digit-group underscores. -/
def stripUnd (cs : List Char) : List Char := cs.filter (fun c => c ≠ '_')

/-- Modelled CPython `float(str)`: digit-group underscores must sit between
digits and are then removed; surrounding whitespace is ignored; then an
optional sign followed by one of the case-insensitive keywords `inf`,
`infinity`, `nan`, or a decimal mantissa (`123`, `123.`, `.5`, `1.25`) with
an optional `e`/`E` exponent. Anything else raises `ValueError`, modelled
as `Option.none`. -/
def pyFloatOfString (s : String) : Option PyFloat :=
  if !underscoresOK s.data then Option.none
  else
    let cs := trimChars (stripUnd s.data)
    let sgnSplit : Bool × List Char :=
      match cs with
      | '+' :: t => (false, t)
      | '-' :: t => (true, t)
      | t => (false, t)
    let neg := sgnSplit.1
    let body := sgnSplit.2
    let low := body.map Char.toLower
    if low == "inf".data || low == "infinity".data then Option.some (PyFloat.inf neg)
    else if low == "nan".data then Option.some PyFloat.nan
    else
      let sgn : ℤ := if neg then -1 else 1
      let ipSplit := body.span Char.isDigit
      let ip := ipSplit.1
      let fpSplit : List Char × List Char :=
        match ipSplit.2 with
        | '.' :: t => t.span Char.isDigit
        | r => ([], r)
      let fp := fpSplit.1
      if ip.isEmpty && fp.isEmpty then Option.none
      else
        let mant : ℚ :=
          (sgn : ℚ) * ((digitsVal ip * 10 ^ fp.length + digitsVal fp : ℕ) : ℚ) /
            ((10 ^ fp.length : ℕ) : ℚ)
        match fpSplit.2 with
        | [] => Option.some (PyFloat.fin mant)
        | c :: t =>
          if c == 'e' || c == 'E' then
            let esgnSplit : ℤ × List Char :=
              match t with
              | '+' :: u => (1, u)
              | '-' :: u => (-1, u)
              | u => (1, u)
            let edSplit := esgnSplit.2.span Char.isDigit
            if edSplit.1.isEmpty || !edSplit.2.isEmpty then Option.none
            else
              let e : ℤ := esgnSplit.1 * (digitsVal edSplit.1 : ℤ)
              Option.some (PyFloat.fin
                (if 0 ≤ e then mant * (10 : ℚ) ^ e.toNat else mant / (10 : ℚ) ^ (-e).toNat))
          else Option.none

/-- Python `float(cell)` on a raw cell: numbers convert to themselves
(spreadsheet numbers are finite), strings are parsed, `None` raises
`TypeError` (`Option.none`). -/
def pyFloat : Value → Option PyFloat
  | .none => Option.none
  | .num q => Option.some (PyFloat.fin q)
  | .str s => pyFloatOfString s

/-- The finite value of a `float()` result, else the supplied default.
Record fields are rationals (file-header convention), so at the
`safe_float` coercion boundary the non-finite results that CPython would
pass through (a cell such as `"inf"` or `" nan "`) are represented by the
coercion default; the raw `float()` call sites, where a non-finite value
changes control flow, work on `PyFloat` directly. -/
def finOrD : Option PyFloat → ℚ → ℚ
  | Option.some (PyFloat.fin q), _ => q
  | _, d => d

/-- The outcome of a Python call that may end in an uncaught exception:
either the exception propagates (`raise`) or a value is returned. -/
inductive PyResult (α : Type) where
  | raise
  | ok (a : α)
deriving DecidableEq

/-- Map over the returned value of a non-raising run. -/
def PyResult.map {α β : Type} (f : α → β) : PyResult α → PyResult β
  | .raise => .raise
  | .ok a => .ok (f a)

/-- The returned value of a non-raising run, with a default for `raise`. -/
def PyResult.okD {α : Type} : PyResult α → α → α
  | .ok a, _ => a
  | .raise, d => d

/-! ## MD5 (`hashlib.md5(...).hexdigest()`)

A concrete embedding of MD5 over byte lists (values `< 256`), with 32-bit
words as naturals reduced modulo `2 ^ 32`, so identifier computations can be
carried out inside Lean. -/

/-- Reduce to a 32-bit word. -/
def w32 (n : ℕ) : ℕ := n % 4294967296

/-- Left-rotate a 32-bit word by `s` bits (`0 < s < 32` in the tables). -/
def rotl32 (x s : ℕ) : ℕ := w32 (x <<< s) ||| (x >>> (32 - s))

/-- Bitwise complement of a 32-bit word. -/
def not32 (x : ℕ) : ℕ := x ^^^ 4294967295

/-- Round functions of MD5. -/
def mdF (b c d : ℕ) : ℕ := (b &&& c) ||| (not32 b &&& d)

/-- Round function G. -/
def mdG (b c d : ℕ) : ℕ := (b &&& d) ||| (c &&& not32 d)

/-- Round function H. -/
def mdH (b c d : ℕ) : ℕ := b ^^^ c ^^^ d

/-- Round function I. -/
def mdI (b c d : ℕ) : ℕ := c ^^^ (b ||| not32 d)

/-- The 64 MD5 sine-derived constants. -/
def md5K : List ℕ :=
  [0xd76aa478, 0xe8c7b756, 0x242070db, 0xc1bdceee,
   0xf57c0faf, 0x4787c62a, 0xa8304613, 0xfd469501,
   0x698098d8, 0x8b44f7af, 0xffff5bb1, 0x895cd7be,
   0x6b901122, 0xfd987193, 0xa679438e, 0x49b40821,
   0xf61e2562, 0xc040b340, 0x265e5a51, 0xe9b6c7aa,
   0xd62f105d, 0x02441453, 0xd8a1e681, 0xe7d3fbc8,
   0x21e1cde6, 0xc33707d6, 0xf4d50d87, 0x455a14ed,
   0xa9e3e905, 0xfcefa3f8, 0x676f02d9, 0x8d2a4c8a,
   0xfffa3942, 0x8771f681, 0x6d9d6122, 0xfde5380c,
   0xa4beea44, 0x4bdecfa9, 0xf6bb4b60, 0xbebfbc70,
   0x289b7ec6, 0xeaa127fa, 0xd4ef3085, 0x04881d05,
   0xd9d4d039, 0xe6db99e5, 0x1fa27cf8, 0xc4ac5665,
   0xf4292244, 0x432aff97, 0xab9423a7, 0xfc93a039,
   0x655b59c3, 0x8f0ccc92, 0xffeff47d, 0x85845dd1,
   0x6fa87e4f, 0xfe2ce6e0, 0xa3014314, 0x4e0811a1,
   0xf7537e82, 0xbd3af235, 0x2ad7d2bb, 0xeb86d391]

/-- The 64 per-round rotation amounts. -/
def md5S : List ℕ :=
  [7, 12, 17, 22, 7, 12, 17, 22, 7, 12, 17, 22, 7, 12, 17, 22,
   5, 9, 14, 20, 5, 9, 14, 20, 5, 9, 14, 20, 5, 9, 14, 20,
   4, 11, 16, 23, 4, 11, 16, 23, 4, 11, 16, 23, 4, 11, 16, 23,
   6, 10, 15, 21, 6, 10, 15, 21, 6, 10, 15, 21, 6, 10, 15, 21]

/-- UTF-8 encoding of one character (Python `str.encode()`). -/
def utf8Bytes (c : Char) : List ℕ :=
  let n := c.toNat
  if n < 128 then [n]
  else if n < 2048 then [192 ||| (n >>> 6), 128 ||| (n &&& 63)]
  else if n < 65536 then
    [224 ||| (n >>> 12), 128 ||| ((n >>> 6) &&& 63), 128 ||| (n &&& 63)]
  else
    [240 ||| (n >>> 18), 128 ||| ((n >>> 12) &&& 63),
     128 ||| ((n >>> 6) &&& 63), 128 ||| (n &&& 63)]

/-- The UTF-8 byte sequence of a string. -/
def strBytes (s : String) : List ℕ := (s.data.map utf8Bytes).flatten

/-- MD5 padding: a `0x80` byte, zeros to 56 mod 64, then the bit length as
a 64-bit little-endian quantity. -/
def md5Pad (msg : List ℕ) : List ℕ :=
  let len := msg.length
  let zeros := (120 - ((len + 1) % 64)) % 64
  msg ++ [128] ++ List.replicate zeros 0 ++
    (List.range 8).map (fun i => ((len * 8) % 18446744073709551616) >>> (8 * i) &&& 255)

/-- The little-endian 32-bit word starting at byte offset `i`. -/
def bytesWord (bs : List ℕ) (i : ℕ) : ℕ :=
  bs.getD i 0 + 256 * bs.getD (i + 1) 0 + 65536 * bs.getD (i + 2) 0 +
    16777216 * bs.getD (i + 3) 0

/-- One MD5 compression (64 rounds) of the block whose `g`-th word is
`M g`, applied to the running state. -/
def md5Compress (M : ℕ → ℕ) (st : ℕ × ℕ × ℕ × ℕ) : ℕ × ℕ × ℕ × ℕ :=
  let r := (List.range 64).foldl
    (fun st4 i =>
      let a := st4.1
      let b := st4.2.1
      let c := st4.2.2.1
      let d := st4.2.2.2
      let fg : ℕ × ℕ :=
        if i < 16 then (mdF b c d, i)
        else if i < 32 then (mdG b c d, (5 * i + 1) % 16)
        else if i < 48 then (mdH b c d, (3 * i + 5) % 16)
        else (mdI b c d, (7 * i) % 16)
      let t := w32 (fg.1 + a + md5K.getD i 0 + M fg.2)
      (d, w32 (b + rotl32 t (md5S.getD i 0)), b, c))
    st
  (w32 (st.1 + r.1), w32 (st.2.1 + r.2.1), w32 (st.2.2.1 + r.2.2.1),
   w32 (st.2.2.2 + r.2.2.2))

/-- The 16-byte MD5 digest of a byte list. -/
def md5Bytes (msg : List ℕ) : List ℕ :=
  let padded := md5Pad msg
  let st := (List.range (padded.length / 64)).foldl
    (fun st bi => md5Compress (fun g => bytesWord padded (64 * bi + 4 * g)) st)
    (1732584193, 4023233417, 2562383102, 271733878)
  [st.1, st.2.1, st.2.2.1, st.2.2.2].flatMap
    (fun w => (List.range 4).map (fun i => (w >>> (8 * i)) &&& 255))

/-- One lowercase hexadecimal digit. -/
def hexDigit (n : ℕ) : Char :=
  if n < 10 then Char.ofNat (48 + n) else Char.ofNat (87 + n)

/-- Two lowercase hex digits of a byte. -/
def byteHex (b : ℕ) : List Char := [hexDigit (b / 16), hexDigit (b % 16)]

/-- `hashlib.md5(s.encode()).hexdigest()`: the 32-character lowercase hex
digest of a string. -/
def md5Hex (s : String) : String := ⟨(md5Bytes (strBytes s)).flatMap byteHex⟩

/-- Python slicing `s[:n]` on a string. -/
def pyTake (s : String) (n : ℕ) : String := ⟨s.data.take n⟩

namespace StateReportEtl

/-- `state_report_etl.safe_float`: default for `None`/`""`/the literal
tokens `"none"`, `"nan"` (case-insensitive, untrimmed); otherwise
`float(value)` with any parse failure degrading to the default and the
finite result returned (`finOrD` documents the non-finite stand-in).
Note: no thousands-separator stripping happens here. -/
def safe_float (value : Value) (default : ℚ := 0) : ℚ :=
  if value = Value.none ∨ value = Value.str "" ∨
      pyLower value.pyStr ∈ (["none", "nan", ""] : List String) then default
  else finOrD (pyFloat value) default

/-- `state_report_etl.safe_str`: `None` for `None`/`""`/the literal string
`"none"` (case-insensitive, tested before trimming); otherwise the trimmed
string form of the value. -/
def safe_str (value : Value) : Option String :=
  if value = Value.none ∨ value = Value.str "" ∨ pyLower value.pyStr = "none" then Option.none
  else Option.some (pyStrip value.pyStr)

end StateReportEtl

namespace CentralEtl

/-- `central_annexure_attribute_etl.safe_float`: `None` defaults; numeric
cells pass through; string cells are trimmed, thousands separators (`,`)
removed, the missing-tokens return the default, and a parse failure also
returns the default (`finOrD` documents the non-finite stand-in). -/
def safe_float (value : Value) (default : ℚ := 0) : ℚ :=
  match value with
  | .none => default
  | .num q => q
  | .str s =>
    let cleaned := stripCommas (pyStrip s)
    if cleaned ∈ (["", "-", "NA", "N/A", "NR", "--"] : List String) then default
    else finOrD (pyFloatOfString cleaned) default

/-- `central_annexure_attribute_etl.safe_str`: the default for `None`,
otherwise the trimmed string form. (The literal string `"none"` is NOT
special-cased here, unlike the state-report `safe_str`.) -/
def safe_str (value : Value) (default : String := "") : String :=
  match value with
  | .none => default
  | v => pyStrip v.pyStr

end CentralEtl

/-! ## Identity assignment -/

/-- An argument to `semantic_chunker.generate_id(*parts)`: the call sites
pass strings, `None`, or the integer `serial_no`/`row_index`. -/
inductive IdPart where
  | none
  | str (s : String)
  | int (n : ℤ)
deriving DecidableEq

/-- Python `str()` of an id part. -/
def IdPart.pyStr : IdPart → String
  | .none => "None"
  | .str s => s
  | .int n => toString n

/-- The normalisation inside `semantic_chunker.generate_id`: `None` or `""`
becomes the `"_NULL_"` placeholder, anything else its string form. -/
def normPart (p : IdPart) : String :=
  if p = IdPart.none ∨ p = IdPart.str "" then "_NULL_" else p.pyStr

/-- Python `sep.join(parts)`. -/
def pyJoin (sep : String) : List String → String
  | [] => ""
  | [a] => a
  | a :: b :: rest => a ++ sep ++ pyJoin sep (b :: rest)

namespace SemanticChunker

/-- The joined content hashed by `semantic_chunker.generate_id`. -/
def idContent (parts : List IdPart) : String :=
  pyJoin "|" (parts.map normPart)

/-- `semantic_chunker.generate_id(*parts)`: MD5 of the placeholder-joined
parts, truncated to 16 hex characters. -/
def generate_id (parts : List IdPart) : String :=
  pyTake (md5Hex (idContent parts)) 16

end SemanticChunker

namespace UnifiedGen

/-- The f-string content hashed by the unified generator's `generate_id`
(note: no `_NULL_` placeholder here — the five parts are joined as-is). -/
def idContent (state district block year metric : String) : String :=
  state ++ "|" ++ district ++ "|" ++ block ++ "|" ++ year ++ "|" ++ metric

/-- `unified_dataset_generator_optimized.generate_id`: MD5 of the raw
five-part join, truncated to 12 hex characters. -/
def generate_id (state district block year metric : String) : String :=
  pyTake (md5Hex (idContent state district block year metric)) 12

end UnifiedGen

/-! ## The state-report canonical record (`state_report_etl.parse_row_to_record`) -/

/-- A contaminated / non-contaminated / poor-quality / total quadruple. -/
structure CncPq where
  contaminated : ℚ
  non_contaminated : ℚ
  poor_quality : ℚ
  total : ℚ
deriving DecidableEq

/-- A fresh / saline pair. -/
structure FreshSaline where
  fresh : ℚ
  saline : ℚ
deriving DecidableEq

namespace StateReportEtl

/-- The cell at 0-based index `i` of a row; `openpyxl` yields `None` both
for empty and for out-of-range cells, and every guarded access
(`row[i] if len(row) > i else default`) in the script uses exactly the
default its coercion assigns to `None`, so `Value.none` models both. -/
def cellAt (row : List Value) (i : ℕ) : Value := row.getD i Value.none

/-- `state_report_etl.get_cnc_pq`: decode four adjacent cells as a
C/NC/PQ/Total quadruple, defaulting each missing/malformed cell to `0.0`. -/
def get_cnc_pq (row : List Value) (start : ℕ) : CncPq where
  contaminated := safe_float (cellAt row start)
  non_contaminated := safe_float (cellAt row (start + 1))
  poor_quality := safe_float (cellAt row (start + 2))
  total := safe_float (cellAt row (start + 3))

/-- `state_report_etl.get_fresh_saline`: decode two adjacent cells. -/
def get_fresh_saline (row : List Value) (start : ℕ) : FreshSaline where
  fresh := safe_float (cellAt row start)
  saline := safe_float (cellAt row (start + 1))

/-- The `geographical_area_ha` group (columns 9–14). -/
structure GeoArea where
  recharge_worthy : CncPq
  hilly_area : ℚ
  total : ℚ
deriving DecidableEq

/-- The `ground_water_recharge_ham` group (columns 15–50). -/
structure RechargeGroup where
  rainfall_recharge : CncPq
  canals : CncPq
  surface_water_irrigation : CncPq
  ground_water_irrigation : CncPq
  tanks_and_ponds : CncPq
  water_conservation_structure : CncPq
  pipelines : CncPq
  sewages_flash_flood_channels : CncPq
  subtotal : CncPq
deriving DecidableEq

/-- The `inflows_outflows_ham` group (columns 51–82). -/
structure InflowsGroup where
  base_flow : CncPq
  stream_recharges : CncPq
  lateral_flows : CncPq
  vertical_flows : CncPq
  evaporation : CncPq
  transpiration : CncPq
  evapotranspiration : CncPq
  subtotal : CncPq
deriving DecidableEq

/-- The `gw_extraction_ham` group (columns 95–110). -/
structure ExtractionGroup where
  domestic : CncPq
  industrial : CncPq
  irrigation : CncPq
  total : CncPq
deriving DecidableEq

/-- The `categorization` group (columns 115–118, string-valued). -/
structure CategorizationGroup where
  contaminated : Option String
  non_contaminated : Option String
  poor_quality : Option String
  overall : Option String
deriving DecidableEq

/-- One monsoon trend pair (string-valued). -/
structure TrendPair where
  contaminated : Option String
  non_contaminated : Option String
deriving DecidableEq

/-- The `gw_trends` group (columns 119–122). -/
structure TrendsGroup where
  pre_monsoon : TrendPair
  post_monsoon : TrendPair
deriving DecidableEq

/-- One quality-tagging triple (string-valued). -/
structure TagTriple where
  contaminated : Option String
  non_contaminated : Option String
  poor_quality : Option String
deriving DecidableEq

/-- The `quality_tagging` group (columns 131–136). -/
structure QualityTagging where
  major_parameter : TagTriple
  other_parameters : TagTriple
deriving DecidableEq

/-- The `additional_potential_resources_ham` group (columns 137–139). -/
structure AddPotRes where
  waterlogged_shallow_water_table : ℚ
  flood_prone : ℚ
  spring_discharge : ℚ
deriving DecidableEq

/-- The canonical state-report record built by `parse_row_to_record`
(all 162 columns). -/
structure StateRecord where
  serial_no : Option ℤ
  state : String
  district : Option String
  assessment_unit : Option String
  watershed_district : Option String
  year : String
  rainfall_mm : CncPq
  geographical_area_ha : GeoArea
  ground_water_recharge_ham : RechargeGroup
  inflows_outflows_ham : InflowsGroup
  annual_gw_recharge_ham : CncPq
  environmental_flows_ham : CncPq
  annual_extractable_gw_resource_ham : CncPq
  gw_extraction_ham : ExtractionGroup
  stage_of_extraction_percent : CncPq
  categorization : CategorizationGroup
  gw_trends : TrendsGroup
  allocation_domestic_2025_ham : CncPq
  net_annual_gw_availability_ham : CncPq
  quality_tagging : QualityTagging
  additional_potential_resources_ham : AddPotRes
  coastal_areas : CncPq
  in_storage_unconfined_gw_ham : FreshSaline
  total_gw_availability_unconfined_ham : FreshSaline
  dynamic_confined_gw_ham : FreshSaline
  in_storage_confined_gw_ham : FreshSaline
  total_confined_gw_ham : FreshSaline
  dynamic_semi_confined_gw_ham : FreshSaline
  in_storage_semi_confined_gw_ham : FreshSaline
  total_semi_confined_gw_ham : FreshSaline
  total_gw_availability_ham : FreshSaline
deriving DecidableEq

/-- The record literal of `parse_row_to_record` (every cell coerced
defensively), factored over the already-computed `serial_no`. -/
def rowRecord (row : List Value) (state_name year : String)
    (serialNo : Option ℤ) : StateRecord :=
        { serial_no := serialNo
          state :=
            match safe_str (cellAt row 1) with
            | Option.some s => if s = "" then state_name else s
            | Option.none => state_name
          district := safe_str (cellAt row 2)
          assessment_unit := safe_str (cellAt row 3)
          watershed_district := safe_str (cellAt row 4)
          year := year
          rainfall_mm := get_cnc_pq row 5
          geographical_area_ha :=
            { recharge_worthy := get_cnc_pq row 9
              hilly_area := safe_float (cellAt row 13)
              total := safe_float (cellAt row 14) }
          ground_water_recharge_ham :=
            { rainfall_recharge := get_cnc_pq row 15
              canals := get_cnc_pq row 19
              surface_water_irrigation := get_cnc_pq row 23
              ground_water_irrigation := get_cnc_pq row 27
              tanks_and_ponds := get_cnc_pq row 31
              water_conservation_structure := get_cnc_pq row 35
              pipelines := get_cnc_pq row 39
              sewages_flash_flood_channels := get_cnc_pq row 43
              subtotal :=
                { contaminated := safe_float (cellAt row 47)
                  non_contaminated := safe_float (cellAt row 48)
                  poor_quality := safe_float (cellAt row 49)
                  total := safe_float (cellAt row 50) } }
          inflows_outflows_ham :=
            { base_flow := get_cnc_pq row 51
              stream_recharges := get_cnc_pq row 55
              lateral_flows := get_cnc_pq row 59
              vertical_flows := get_cnc_pq row 63
              evaporation := get_cnc_pq row 67
              transpiration := get_cnc_pq row 71
              evapotranspiration := get_cnc_pq row 75
              subtotal :=
                { contaminated := safe_float (cellAt row 79)
                  non_contaminated := safe_float (cellAt row 80)
                  poor_quality := safe_float (cellAt row 81)
                  total := safe_float (cellAt row 82) } }
          annual_gw_recharge_ham := get_cnc_pq row 83
          environmental_flows_ham := get_cnc_pq row 87
          annual_extractable_gw_resource_ham := get_cnc_pq row 91
          gw_extraction_ham :=
            { domestic := get_cnc_pq row 95
              industrial := get_cnc_pq row 99
              irrigation := get_cnc_pq row 103
              total :=
                { contaminated := safe_float (cellAt row 107)
                  non_contaminated := safe_float (cellAt row 108)
                  poor_quality := safe_float (cellAt row 109)
                  total := safe_float (cellAt row 110) } }
          stage_of_extraction_percent := get_cnc_pq row 111
          categorization :=
            { contaminated := safe_str (cellAt row 115)
              non_contaminated := safe_str (cellAt row 116)
              poor_quality := safe_str (cellAt row 117)
              overall := safe_str (cellAt row 118) }
          gw_trends :=
            { pre_monsoon :=
                { contaminated := safe_str (cellAt row 119)
                  non_contaminated := safe_str (cellAt row 120) }
              post_monsoon :=
                { contaminated := safe_str (cellAt row 121)
                  non_contaminated := safe_str (cellAt row 122) } }
          allocation_domestic_2025_ham := get_cnc_pq row 123
          net_annual_gw_availability_ham := get_cnc_pq row 127
          quality_tagging :=
            { major_parameter :=
                { contaminated := safe_str (cellAt row 131)
                  non_contaminated := safe_str (cellAt row 132)
                  poor_quality := safe_str (cellAt row 133) }
              other_parameters :=
                { contaminated := safe_str (cellAt row 134)
                  non_contaminated := safe_str (cellAt row 135)
                  poor_quality := safe_str (cellAt row 136) } }
          additional_potential_resources_ham :=
            { waterlogged_shallow_water_table := safe_float (cellAt row 137)
              flood_prone := safe_float (cellAt row 138)
              spring_discharge := safe_float (cellAt row 139) }
          coastal_areas := get_cnc_pq row 140
          in_storage_unconfined_gw_ham := get_fresh_saline row 144
          total_gw_availability_unconfined_ham := get_fresh_saline row 146
          dynamic_confined_gw_ham := get_fresh_saline row 148
          in_storage_confined_gw_ham := get_fresh_saline row 150
          total_confined_gw_ham := get_fresh_saline row 152
          dynamic_semi_confined_gw_ham := get_fresh_saline row 154
          in_storage_semi_confined_gw_ham := get_fresh_saline row 156
          total_semi_confined_gw_ham := get_fresh_saline row 158
          total_gw_availability_ham := get_fresh_saline row 160 }

/-- `state_report_etl.parse_row_to_record`: `None` for short rows, rows
whose first cell is falsy or fails `float()`, and `"Total"` rows. The
`try` block covers only `float(row[0])`; the later `int(serial)` in the
record literal is unguarded, so a serial that `float()`-parses to `nan` or
`±inf` makes the function raise an uncaught
`ValueError`/`OverflowError` (`PyResult.raise`). Otherwise the fully
decoded record is returned. -/
def parse_row_to_record (row : List Value) (state_name year : String) :
    PyResult (Option StateRecord) :=
  if row.length < 10 then PyResult.ok Option.none
  else if ¬ (cellAt row 0).truthy then PyResult.ok Option.none
  else
    match pyFloat (cellAt row 0) with
    | Option.none => PyResult.ok Option.none
    | Option.some serial =>
      if safe_str (cellAt row 0) = Option.some "Total" then PyResult.ok Option.none
      else if serial.truthy then
        match serial.toInt with
        | Option.none => PyResult.raise
        | Option.some n =>
          PyResult.ok (Option.some (rowRecord row state_name year (Option.some n)))
      else PyResult.ok (Option.some (rowRecord row state_name year Option.none))

/-- Python truthiness of the `district` field (`record.get("district")`):
present and non-empty. -/
def districtTruthy (r : StateRecord) : Bool :=
  match r.district with
  | Option.some d => d ≠ ""
  | Option.none => false

/-- The record list built by `extract_state_report`'s row loop: each sheet
row is parsed and kept only when the parse returned a record whose
`district` is truthy. The loop has no `try`, so an exception raised by
`parse_row_to_record` propagates and aborts the whole extraction
(`PyResult.raise`). -/
def extract_state_report : List (List Value) → String → String →
    PyResult (List StateRecord)
  | [], _, _ => PyResult.ok []
  | row :: rest, state_name, year =>
    match parse_row_to_record row state_name year with
    | PyResult.raise => PyResult.raise
    | PyResult.ok Option.none => extract_state_report rest state_name year
    | PyResult.ok (Option.some r) =>
      match extract_state_report rest state_name year with
      | PyResult.raise => PyResult.raise
      | PyResult.ok recs =>
        PyResult.ok (if districtTruthy r then r :: recs else recs)

end StateReportEtl

/-! ## Sectioned-sheet scanners (`extract_annexure2`, `extract_annexure3` 3B) -/

namespace CentralEtl

/-- The cell in 1-based column `c` of a sheet row (`ws.cell(row, column=c)`);
cells beyond the populated range read as `None`. -/
def colAt (row : List Value) (c : ℕ) : Value := row.getD (c - 1) Value.none

/-- A sentinel marker row: first cell truthy and containing the phrase
`"DYNAMIC GROUND WATER"` after upper-casing. -/
def isSentinel (cellA : Value) : Bool :=
  cellA.truthy && strIn "DYNAMIC GROUND WATER" (pyUpper cellA.pyStr)

/-- The serial-number rejection test shared by the scanners' `try` blocks
(`serial = float(cell) if cell else None; if serial is None or serial < 1:
continue`, failures caught): a falsy first cell, a `float()` failure, or a
parsed value comparing `< 1` rejects. The comparison is the IEEE one, so a
cell parsing to `nan` or `+inf` is NOT rejected (`nan < 1` and `inf < 1`
are both `False`), while `-inf` is. -/
def serialRejects (cellA : Value) : Bool :=
  if ¬ cellA.truthy then true
  else
    match pyFloat cellA with
    | Option.none => true
    | Option.some f => f.ltOne

/-- `current_state or "Unknown"`. -/
def stateOrUnknown (cur : Option String) : String :=
  match cur with
  | Option.some s => if s = "" then "Unknown" else s
  | Option.none => "Unknown"

/-- A monsoon/non-monsoon rainfall-and-other-sources pair. -/
structure SeasonPair where
  from_rainfall : ℚ
  from_other_sources : ℚ
deriving DecidableEq

/-- The `ground_water_recharge_ham` group of an Annexure II record. -/
structure SeasonRecharge where
  monsoon_season : SeasonPair
  non_monsoon_season : SeasonPair
  total_annual : ℚ
deriving DecidableEq

/-- The extraction split of an Annexure II record. -/
structure ExtractionSplit where
  irrigation : ℚ
  industrial : ℚ
  domestic : ℚ
  total : ℚ
deriving DecidableEq

/-- One record of `extract_annexure2` (Annexure II, district level). -/
structure Annexure2Record where
  serial_no : ℚ
  state : String
  district : String
  year : String
  ground_water_recharge_ham : SeasonRecharge
  total_natural_discharges_ham : ℚ
  annual_extractable_resource_ham : ℚ
  current_annual_extraction_ham : ExtractionSplit
  annual_gw_allocation_domestic_ham : ℚ
  net_gw_availability_ham : ℚ
  stage_of_extraction_percent : ℚ
deriving DecidableEq

/-- The record `extract_annexure2` builds from a data row (columns 1–16). -/
def mkAnnexure2Record (row : List Value) (st year : String) : Annexure2Record where
  serial_no := safe_float (colAt row 1)
  state := st
  district := safe_str (colAt row 2)
  year := year
  ground_water_recharge_ham :=
    { monsoon_season :=
        { from_rainfall := safe_float (colAt row 3)
          from_other_sources := safe_float (colAt row 4) }
      non_monsoon_season :=
        { from_rainfall := safe_float (colAt row 5)
          from_other_sources := safe_float (colAt row 6) }
      total_annual := safe_float (colAt row 7) }
  total_natural_discharges_ham := safe_float (colAt row 8)
  annual_extractable_resource_ham := safe_float (colAt row 9)
  current_annual_extraction_ham :=
    { irrigation := safe_float (colAt row 10)
      industrial := safe_float (colAt row 11)
      domestic := safe_float (colAt row 12)
      total := safe_float (colAt row 13) }
  annual_gw_allocation_domestic_ham := safe_float (colAt row 14)
  net_gw_availability_ham := safe_float (colAt row 15)
  stage_of_extraction_percent := safe_float (colAt row 16)

/-- The noise test of `extract_annexure2`'s first `if`: when the first cell
is falsy or one of the header/total literals, the row is dropped unless its
first cell still parses as a serial `≥ 1`; a first cell outside that literal
set bypasses the serial check entirely. -/
def annex2HeaderSkip (cellA : Value) : Bool :=
  if ¬ cellA.truthy ∨
      pyStrip cellA.pyStr ∈
        (["", "S.NO", "S.No", "1", "Total(Ham)", "Total(Bcm)"] : List String) then
    serialRejects cellA
  else false

/-- The district noise test of `extract_annexure2`. -/
def annex2DistrictSkip (district : Value) : Bool :=
  ¬ district.truthy ∨
    pyStrip district.pyStr ∈
      (["", "Name of District", "Total", "Total(Ham)", "Total(Bcm)"] : List String)

/-- The row loop of `extract_annexure2`: on a sentinel row the next row's
first cell (when truthy, with NO header guard) becomes the current state;
otherwise header noise and invalid districts are skipped and the rest
decoded, tagged with `current_state or "Unknown"`. -/
def extract_annexure2 (year : String) :
    List (List Value) → Option String → List Annexure2Record
  | [], _ => []
  | row :: rest, cur =>
    let cellA := colAt row 1
    if isSentinel cellA then
      let nextVal := colAt (rest.headD []) 1
      extract_annexure2 year rest
        (if nextVal.truthy then Option.some (safe_str nextVal) else cur)
    else if annex2HeaderSkip cellA then extract_annexure2 year rest cur
    else if annex2DistrictSkip (colAt row 2) then extract_annexure2 year rest cur
    else mkAnnexure2Record row (stateOrUnknown cur) year :: extract_annexure2 year rest cur

/-- A count/percent pair of the categorization sheets. -/
structure CountPercent where
  count : ℚ
  percent : ℚ
deriving DecidableEq

/-- One record of Annexure 3B (district-level categorization). -/
structure Annexure3BRecord where
  serial_no : ℚ
  state : String
  district : String
  total_assessed_units : ℚ
  safe : CountPercent
  semi_critical : CountPercent
  critical : CountPercent
  over_exploited : CountPercent
  saline : CountPercent
deriving DecidableEq

/-- The record built from an Annexure 3B data row (columns 1–13). -/
def mkAnnexure3BRecord (row : List Value) (st : String) : Annexure3BRecord where
  serial_no := safe_float (colAt row 1)
  state := st
  district := safe_str (colAt row 2)
  total_assessed_units := safe_float (colAt row 3)
  safe := { count := safe_float (colAt row 4), percent := safe_float (colAt row 5) }
  semi_critical := { count := safe_float (colAt row 6), percent := safe_float (colAt row 7) }
  critical := { count := safe_float (colAt row 8), percent := safe_float (colAt row 9) }
  over_exploited := { count := safe_float (colAt row 10), percent := safe_float (colAt row 11) }
  saline := { count := safe_float (colAt row 12), percent := safe_float (colAt row 13) }

/-- The district noise test of the Annexure 3B loop. -/
def annex3BDistrictSkip (district : Value) : Bool :=
  ¬ district.truthy ∨
    pyStrip district.pyStr ∈
      (["", "Name of District", "Total", "No", "No."] : List String)

/-- The row loop of `extract_annexure3` for sheet 3B: on a sentinel row the
next row's first cell becomes the current state only when truthy and not
the repeated header `"S.No"`/`"S.NO"`; data rows must pass the district
test and then the unconditional serial test. -/
def extract_annexure3B :
    List (List Value) → Option String → List Annexure3BRecord
  | [], _ => []
  | row :: rest, cur =>
    let cellA := colAt row 1
    if isSentinel cellA then
      let nextVal := colAt (rest.headD []) 1
      extract_annexure3B rest
        (if nextVal.truthy ∧ pyStrip nextVal.pyStr ∉ (["S.No", "S.NO"] : List String)
         then Option.some (safe_str nextVal) else cur)
    else if annex3BDistrictSkip (colAt row 2) then extract_annexure3B rest cur
    else if serialRejects cellA then extract_annexure3B rest cur
    else mkAnnexure3BRecord row (stateOrUnknown cur) :: extract_annexure3B rest cur

end CentralEtl

/-! ## Numeric display formatting (shared helpers) -/

/-- Round-half-to-even of a rational, modelling the rounding of a binary
float whose value the rational represents exactly. -/
def roundHalfEven (x : ℚ) : ℤ :=
  let f := ⌊x⌋
  let r := x - f
  if r < 1 / 2 then f
  else if 1 / 2 < r then f + 1
  else if f % 2 = 0 then f else f + 1

/-- Python `f"{v:.2f}"` on an exactly-represented value: round-half-even at
two decimals and render in fixed point. -/
def fmt2 (q : ℚ) : String :=
  let n := roundHalfEven (q * 100)
  let a := n.natAbs
  (if q < 0 then "-" else "") ++ toString (a / 100) ++ "." ++
    (if a % 100 < 10 then "0" else "") ++ toString (a % 100)

/-- Truthiness of an optional string (`if s:`). -/
def optTruthy (o : Option String) : Bool :=
  match o with
  | Option.some s => s ≠ ""
  | Option.none => false

/-- Truthiness of an optional number (`if v:`): `None` and `0` are falsy. -/
def numTruthy (o : Option ℚ) : Bool :=
  match o with
  | Option.some q => q ≠ 0
  | Option.none => false

/-- Python `a or b` on optional strings. -/
def pyOrStr (a b : Option String) : Option String :=
  if optTruthy a then a else b

/-- Python `str.isupper()`: at least one cased character and no lowercase
one (ASCII data). -/
def pyIsUpper (s : String) : Bool :=
  s.data.any Char.isAlpha && s.data.all (fun c => ¬ c.isLower)

/-- `str.title()` character recursion: the flag says whether the previous
character was alphabetic. -/
def titleChars : Bool → List Char → List Char
  | _, [] => []
  | prev, c :: cs =>
    if c.isAlpha then (if prev then c.toLower else c.toUpper) :: titleChars true cs
    else c :: titleChars false cs

/-- Python `str.title()`. -/
def pyTitle (s : String) : String := ⟨titleChars false s.data⟩

namespace SemanticChunker

/-- The state-name replacement table of `semantic_chunker.clean_name`. -/
def stateReplacements : List (String × String) :=
  [("Andman Nicobar", "Andaman and Nicobar Islands"),
   ("Andaman And Nicobar Islands", "Andaman and Nicobar Islands"),
   ("Jammu And Kashmir", "Jammu and Kashmir"),
   ("Jammu Kashmir", "Jammu and Kashmir"),
   ("Dadra And Nagar Haveli", "Dadra and Nagar Haveli"),
   ("Daman And Diu", "Daman and Diu"),
   ("Damandiu", "Daman and Diu"),
   ("Lakshdweep", "Lakshadweep"),
   ("Kerela", "Kerala"),
   ("Telengana", "Telangana"),
   ("Tamilnadu", "Tamil Nadu"),
   ("Arunachal", "Arunachal Pradesh")]

/-- `semantic_chunker.clean_name`: `None` for missing/empty/null-like names,
title-casing of all-caps names, and (for states) the replacement table. -/
def clean_name (name : Option String) (nameType : String) : Option String :=
  match name with
  | Option.none => Option.none
  | Option.some n0 =>
    if n0 = "" then Option.none
    else
      let n1 := pyStrip n0
      if n1 = "" ∨ pyLower n1 ∈ (["null", "none", ""] : List String) then Option.none
      else
        let n2 := if pyIsUpper n1 then pyTitle n1 else n1
        if nameType = "state" then
          match stateReplacements.find? (fun p => pyLower n2 = pyLower p.1) with
          | Option.some p => Option.some p.2
          | Option.none => Option.some n2
        else Option.some n2

/-- `semantic_chunker.format_value`: millions render as `…M`, thousands as
`…K`, integral values without decimals, anything else in two-decimal fixed
point; `None` renders as `"N/A"`. (The source's `unit` parameter is unused
in its body and omitted here.) -/
def format_value (value : Option ℚ) : String :=
  match value with
  | Option.none => "N/A"
  | Option.some q =>
    if 1000000 ≤ |q| then fmt2 (q / 1000000) ++ "M"
    else if 1000 ≤ |q| then fmt2 (q / 1000) ++ "K"
    else if q.den = 1 then toString q.num
    else fmt2 q

/-- `semantic_chunker.build_location_string`. -/
def build_location_string (state : String) (district block : Option String) :
    String :=
  if optTruthy block && optTruthy district then
    block.getD "" ++ " block in " ++ district.getD "" ++ " district, " ++ state
  else if optTruthy district then district.getD "" ++ " district, " ++ state
  else state

/-- A metadata value: the chunk metadata maps hold numbers and strings. -/
inductive MetaVal where
  | num (q : ℚ)
  | str (s : String)
deriving DecidableEq

/-- A semantic chunk as built by `build_state_report_chunk` (the `metadata`
dict is modelled as an insertion-ordered association list). -/
structure Chunk where
  id : String
  state : String
  district : Option String
  block : Option String
  year : String
  source_type : String
  source : String
  categorization : Option String
  text : String
  metadata : List (String × MetaVal)
  watershed : Option String
deriving DecidableEq

/-- `IdPart` of an optional string. -/
def strPart (o : Option String) : IdPart :=
  match o with
  | Option.some s => IdPart.str s
  | Option.none => IdPart.none

/-- `IdPart` of an optional integer. -/
def intPart (o : Option ℤ) : IdPart :=
  match o with
  | Option.some n => IdPart.int n
  | Option.none => IdPart.none

/-- `semantic_chunker.build_state_report_chunk`: `None` when the cleaned
block name is missing, otherwise the narrative chunk. (Values whose only
use in the source is dead — `gw_recharge_total`, `env_flows`,
`total_availability` — are not re-extracted.) -/
def build_state_report_chunk (record : StateReportEtl.StateRecord)
    (state year source : String) (_row_index : ℤ) : Option Chunk :=
  let district := clean_name record.district "district"
  let block := clean_name record.assessment_unit "block"
  let watershed := record.watershed_district
  let serial_no := record.serial_no
  if ¬ optTruthy block then Option.none
  else
    let categorization :=
      pyOrStr record.categorization.overall record.categorization.non_contaminated
    let rainfall_total : Option ℚ := Option.some record.rainfall_mm.total
    let geo_area_total : Option ℚ := Option.some record.geographical_area_ha.total
    let recharge_worthy : Option ℚ :=
      Option.some record.geographical_area_ha.recharge_worthy.total
    let gw_recharge_rainfall : Option ℚ :=
      Option.some record.ground_water_recharge_ham.rainfall_recharge.total
    let annual_recharge : Option ℚ := Option.some record.annual_gw_recharge_ham.total
    let extractable : Option ℚ :=
      Option.some record.annual_extractable_gw_resource_ham.total
    let extraction_irrigation : Option ℚ :=
      Option.some record.gw_extraction_ham.irrigation.total
    let extraction_domestic : Option ℚ :=
      Option.some record.gw_extraction_ham.domestic.total
    let extraction_industrial : Option ℚ :=
      Option.some record.gw_extraction_ham.industrial.total
    let extraction_total : Option ℚ := Option.some record.gw_extraction_ham.total.total
    let stage_of_extraction : Option ℚ :=
      Option.some record.stage_of_extraction_percent.total
    let net_availability : Option ℚ :=
      Option.some record.net_annual_gw_availability_ham.total
    let trend_pre := record.gw_trends.pre_monsoon.non_contaminated
    let trend_post := record.gw_trends.post_monsoon.non_contaminated
    let storage_fresh : Option ℚ := Option.some record.in_storage_unconfined_gw_ham.fresh
    let location := build_location_string state district block
    let parts0 := ["**" ++ location ++ " (" ++ year ++ ")**"]
    let parts1 := parts0 ++
      (if optTruthy watershed then ["Watershed: " ++ watershed.getD "" ++ "."] else [])
    let area_info :=
      (if numTruthy rainfall_total then
        ["Annual rainfall: " ++ format_value rainfall_total ++ " mm"] else []) ++
      (if numTruthy geo_area_total then
        ["Total area: " ++ format_value geo_area_total ++ " ha"] else []) ++
      (if numTruthy recharge_worthy then
        ["Recharge-worthy area: " ++ format_value recharge_worthy ++ " ha"] else [])
    let parts2 := parts1 ++
      (if area_info ≠ [] then [pyJoin " | " area_info ++ "."] else [])
    let recharge_info :=
      (if numTruthy annual_recharge then
        ["Annual groundwater recharge: " ++ format_value annual_recharge ++ " ham"]
       else []) ++
      (if numTruthy gw_recharge_rainfall then
        ["from rainfall: " ++ format_value gw_recharge_rainfall ++ " ham"] else [])
    let parts3 := parts2 ++
      (if recharge_info ≠ [] then [pyJoin " | " recharge_info ++ "."] else [])
    let ext_breakdown :=
      (if numTruthy extraction_irrigation then
        ["irrigation " ++ format_value extraction_irrigation] else []) ++
      (if numTruthy extraction_domestic then
        ["domestic " ++ format_value extraction_domestic] else []) ++
      (if numTruthy extraction_industrial ∧ 0 < extraction_industrial.getD 0 then
        ["industrial " ++ format_value extraction_industrial] else [])
    let ext_details := "Total extraction: " ++ format_value extraction_total ++ " ham" ++
      (if ext_breakdown ≠ [] then " (" ++ pyJoin ", " ext_breakdown ++ ")" else "")
    let resource_info :=
      (if numTruthy extractable then
        ["Extractable resource: " ++ format_value extractable ++ " ham"] else []) ++
      (if numTruthy extraction_total then [ext_details] else [])
    let parts4 := parts3 ++
      (if resource_info ≠ [] then [pyJoin " | " resource_info ++ "."] else [])
    let status_info :=
      (if stage_of_extraction.isSome then
        ["Stage of extraction: " ++ format_value stage_of_extraction ++ "%"] else []) ++
      (if numTruthy net_availability then
        ["Net availability: " ++ format_value net_availability ++ " ham"] else []) ++
      (if optTruthy categorization then
        ["Status: **" ++ pyUpper (categorization.getD "") ++ "**"] else [])
    let parts5 := parts4 ++
      (if status_info ≠ [] then [pyJoin " | " status_info ++ "."] else [])
    let parts6 := parts5 ++
      (if optTruthy trend_pre ∨ optTruthy trend_post then
        ["Groundwater trend:" ++
          (if optTruthy trend_pre then " Pre-monsoon: " ++ trend_pre.getD "" else "") ++
          (if optTruthy trend_post then " | Post-monsoon: " ++ trend_post.getD "" else "") ++
          "."]
       else [])
    let parts7 := parts6 ++
      (if numTruthy storage_fresh ∧ 0 < storage_fresh.getD 0 then
        ["Fresh groundwater in storage: " ++ format_value storage_fresh ++ " ham."]
       else [])
    let metadata :=
      (if numTruthy rainfall_total then
        [("rainfall_mm", MetaVal.num (rainfall_total.getD 0))] else []) ++
      (if numTruthy annual_recharge then
        [("annual_recharge_ham", MetaVal.num (annual_recharge.getD 0))] else []) ++
      (if numTruthy extractable then
        [("extractable_resource_ham", MetaVal.num (extractable.getD 0))] else []) ++
      (if numTruthy extraction_total then
        [("extraction_total_ham", MetaVal.num (extraction_total.getD 0))] else []) ++
      (if stage_of_extraction.isSome then
        [("stage_of_extraction_percent", MetaVal.num (stage_of_extraction.getD 0))]
       else []) ++
      (if numTruthy net_availability then
        [("net_availability_ham", MetaVal.num (net_availability.getD 0))] else []) ++
      (if optTruthy categorization then
        [("categorization", MetaVal.str (categorization.getD ""))] else [])
    Option.some
      { id := generate_id
          [IdPart.str state, strPart district, strPart block, IdPart.str year,
           IdPart.str "state_report", intPart serial_no]
        state := state
        district := district
        block := block
        year := year
        source_type := "state_report"
        source := source
        categorization := categorization
        text := pyJoin " " parts7
        metadata := metadata
        watershed := if optTruthy watershed then watershed else Option.none }

end SemanticChunker

namespace UnifiedGen

/-- The `UNIT_NAMES` lookup (`UNIT_NAMES.get(unit, unit)`). -/
def unitName (u : String) : String :=
  if u = "ham" then "hectare meters"
  else if u = "bcm" then "billion cubic meters"
  else if u = "mm" then "millimeters"
  else if u = "ha" then "hectares"
  else if u = "sq_km" then "square kilometers"
  else if u = "percent" then "percent"
  else if u = "count" then "units"
  else if u = "" then ""
  else u

/-- Python `str.isdigit()` (ASCII digits). -/
def pyIsDigit (s : String) : Bool :=
  !s.data.isEmpty && s.data.all Char.isDigit

/-- The unified generator's `format_value`: integral floats render without
decimals, other floats in two-decimal fixed point, strings as themselves,
`None` as `"N/A"`. -/
def format_value : Value → String
  | Value.none => "N/A"
  | Value.num q => if q.den = 1 then toString q.num else fmt2 q
  | Value.str s => s

/-- `unified_dataset_generator_optimized.generate_text`: the sentence
attached to a metric fact, chosen by value type and unit. -/
def generate_text (state : String) (district block : Option String)
    (year metric_desc : String) (value : Value) (unit : String) : String :=
  let location :=
    if optTruthy block && optTruthy district then
      block.getD "" ++ " block of " ++ district.getD "" ++ " district, " ++ state
    else if optTruthy district then district.getD "" ++ " district, " ++ state
    else state
  let value_str := format_value value
  let unit_name := unitName unit
  let isNonNumericStr : Bool :=
    match value with
    | Value.str s => !pyIsDigit ⟨s.data.filter (fun c => c ≠ '.' && c ≠ '-')⟩
    | _ => false
  if isNonNumericStr then
    "In " ++ location ++ " (" ++ year ++ "), " ++ metric_desc ++ " is " ++
      (match value with | Value.str s => s | v => format_value v) ++ "."
  else if strIn "count" unit ∨ strIn "units" (pyLower metric_desc) then
    state ++ " has " ++ value_str ++ " " ++ metric_desc ++
      " as per the " ++ year ++ " groundwater assessment."
  else if unit = "percent" then
    "In " ++ location ++ " (" ++ year ++ "), " ++ metric_desc ++ " is " ++
      value_str ++ "%."
  else if unit_name ≠ "" then
    "In " ++ location ++ " (" ++ year ++ "), " ++ metric_desc ++ " is " ++
      value_str ++ " " ++ unit_name ++ "."
  else
    "In " ++ location ++ " (" ++ year ++ "), " ++ metric_desc ++ " is " ++
      value_str ++ "."

/-- A unified metric-fact record. -/
structure URecord where
  id : String
  state : String
  district : Option String
  block : Option String
  year : String
  metric : String
  value : Value
  unit : String
  category : String
  categorization : Option String
  source : String
  source_type : String
  text : String
deriving DecidableEq

/-- `isinstance(value, str) and value.strip() == ""` in `create_record`. -/
def Value.strippedEmpty : Value → Bool
  | Value.str s => pyStrip s = ""
  | _ => false

/-- `isinstance(value, (int, float)) and value == 0` in `create_record`. -/
def Value.isZeroNum : Value → Bool
  | Value.num q => q = 0
  | _ => false

/-- The always-keep markers of `create_record`'s zero filter. -/
def important_zero_metrics : List String :=
  ["over_exploited_count", "critical_count", "saline_count",
   "stage_of_extraction", "categorization"]

/-- Whether the (lower-cased) metric name contains an always-keep marker
(`any(m in metric.lower() for m in important_zero_metrics)`). -/
def keepsZero (metric : String) : Bool :=
  important_zero_metrics.any (fun m => strIn m (pyLower metric))

/-- `unified_dataset_generator_optimized.create_record`: `None` for missing
or blank values and for zero numeric values of non-always-keep metrics;
otherwise the fact record with its 12-hex id and generated sentence. -/
def create_record (state : String) (district block : Option String)
    (year metric : String) (value : Value)
    (unit category source source_type metric_desc : String)
    (categorization : Option String := Option.none) : Option URecord :=
  if value = Value.none ∨ value = Value.str "" ∨ Value.strippedEmpty value then Option.none
  else if Value.isZeroNum value ∧ ¬ keepsZero metric then Option.none
  else Option.some
    { id := generate_id state (district.getD "") (block.getD "") year metric
      state := state
      district := district
      block := block
      year := year
      metric := metric
      value := value
      unit := unit
      category := category
      categorization := categorization
      source := source
      source_type := source_type
      text := generate_text state district block year metric_desc value unit }

end UnifiedGen

/-! ## Concrete fixtures used by the scenario theorems -/

/-- The scenario row of the spec: serial `"1"`, state, district, block at the
data start offset, with the rainfall-total cell (index 8) holding the
comma-grouped string `"1,234.5"`. -/
def c1Row : List Value :=
  [Value.str "1", Value.str "StateX", Value.str "DistrictY", Value.str "BlockZ", Value.none,
   Value.num 10, Value.num 20, Value.num 30, Value.str "1,234.5", Value.none]

/-- A sentinel marker row of the sectioned annexure sheets. -/
def sentinelRow : List Value := [Value.str "DYNAMIC GROUND WATER RESOURCES OF INDIA"]

/-- A repeated column-header row (first cell `"S.No"`). -/
def headerRow : List Value := [Value.str "S.No", Value.str "Name of District"]

/-- A plain data row of a sectioned sheet (serial `"2"`, district in
column 2; the numeric columns read as empty and decode to `0.0`). -/
def dataRow : List Value := [Value.str "2", Value.str "DistrictY"]

/-- A row whose serial-number cell does not parse (`"abc"`) but whose
district cell is valid. -/
def badSerialRow : List Value := [Value.str "abc", Value.str "DistrictY"]

/-- A valid 87-cell state-report row whose annual groundwater recharge
total (column 86) is `1500000.0`. -/
def c6Row : List Value :=
  (List.range 87).map (fun i =>
    if i = 0 then Value.str "1"
    else if i = 1 then Value.str "StateX"
    else if i = 2 then Value.str "DistrictY"
    else if i = 3 then Value.str "BlockZ"
    else if i = 86 then Value.num 1500000
    else Value.none)

/-- The semantic chunk built from `c6Row` through the real pipeline:
decode the row, then build the state-report chunk. -/
def c6Chunk : Option SemanticChunker.Chunk :=
  match StateReportEtl.parse_row_to_record c6Row "StateX" "2024-2025" with
  | PyResult.ok (Option.some r) =>
    SemanticChunker.build_state_report_chunk r "StateX" "2024-2025" "src" 0
  | _ => Option.none

/-- A valid state-report row with a present district (used for the output
invariant scenario). -/
def c9Row : List Value :=
  [Value.str "1", Value.str "StateX", Value.str "DistrictY", Value.str "BlockZ", Value.none,
   Value.num 10, Value.num 20, Value.num 30, Value.num 40, Value.none]

/-- A ten-cell state-report row whose serial cell is the string `"nan"`:
`float("nan")` succeeds, `bool(nan)` is truthy, and the unguarded
`int(nan)` raises. -/
def nanSerialRow : List Value :=
  [Value.str "nan", Value.str "StateX", Value.str "DistrictY", Value.str "BlockZ", Value.none,
   Value.num 10, Value.num 20, Value.num 30, Value.num 40, Value.none]

/-- A ten-cell state-report row whose serial cell is the PEP-515 string
`"1_000"`, which `float()` parses to `1000.0`. -/
def underscoreRow : List Value :=
  [Value.str "1_000", Value.str "StateX", Value.str "DistrictY", Value.str "BlockZ", Value.none,
   Value.num 10, Value.num 20, Value.num 30, Value.num 40, Value.none]

/-- An Annexure 3B row whose serial cell is `"nan"` and whose district is
valid: `float("nan")` succeeds and `nan < 1` is `False`, so the scanner
decodes it. -/
def nanSerialDataRow : List Value := [Value.str "nan", Value.str "DistrictY"]

/-- An Annexure 3B row whose serial cell is `"-inf"`: `float` succeeds and
`-inf < 1` is `True`, so the scanner skips it. -/
def negInfSerialRow : List Value := [Value.str "-inf", Value.str "DistrictY"]


/-! ## Helper lemmas -/

/-- A failed `float()` conversion always degrades to the supplied default in
the state-report coercion. -/
theorem state_safe_float_default (v : Value) (d : ℚ) (h : pyFloat v = Option.none) :
    StateReportEtl.safe_float v d = d := by
  unfold StateReportEtl.safe_float
  split
  · rfl
  · rw [h]; rfl

/-- Out-of-range cells read as `None`. -/
theorem cellAt_out_of_range (row : List Value) (i : ℕ) (h : row.length ≤ i) :
    StateReportEtl.cellAt row i = Value.none := by
  unfold StateReportEtl.cellAt
  exact List.getD_eq_default _ _ h

/-- The MD5 digest always has 16 bytes. -/
theorem md5Bytes_length (msg : List ℕ) : (md5Bytes msg).length = 16 := by
  simp [md5Bytes]

/-- The MD5 hex digest always has 32 characters. -/
theorem md5Hex_length (s : String) : (md5Hex s).length = 32 := by
  have h2 : ∀ l : List ℕ, (l.flatMap byteHex).length = 2 * l.length := by
    intro l
    induction l with
    | nil => simp
    | cons a t ih => simp [byteHex, ih]; ring
  show ((md5Bytes (strBytes s)).flatMap byteHex).length = 32
  rw [h2, md5Bytes_length]

/-- Chunk identifiers are 16 hex characters. -/
theorem chunk_id_length (parts : List IdPart) :
    (SemanticChunker.generate_id parts).length = 16 := by
  have h : ((md5Hex (SemanticChunker.idContent parts)).data).length = 32 :=
    md5Hex_length (SemanticChunker.idContent parts)
  show (List.take 16 (md5Hex (SemanticChunker.idContent parts)).data).length = 16
  rw [List.length_take, h]
  decide

/-- Fact identifiers are 12 hex characters. -/
theorem fact_id_length (a b c d e : String) :
    (UnifiedGen.generate_id a b c d e).length = 12 := by
  have h : ((md5Hex (UnifiedGen.idContent a b c d e)).data).length = 32 :=
    md5Hex_length (UnifiedGen.idContent a b c d e)
  show (List.take 12 (md5Hex (UnifiedGen.idContent a b c d e)).data).length = 12
  rw [List.length_take, h]
  decide

/-- The None-or-empty placeholder of the chunker id. -/
theorem chunk_content_placeholder (p : IdPart) (rest : List IdPart)
    (hp : p = IdPart.none ∨ p = IdPart.str "") :
    SemanticChunker.idContent (p :: rest) = pyJoin "|" ("_NULL_" :: rest.map normPart) := by
  rcases hp with rfl | rfl <;> rfl

/-- The chunker hash inputs for a missing leading part and for the string
`"other_state"` in that position never coincide. -/
theorem chunk_content_ne (x : String) (rest : List IdPart) :
    SemanticChunker.idContent (IdPart.none :: IdPart.str x :: rest) ≠
      SemanticChunker.idContent (IdPart.str "other_state" :: IdPart.str x :: rest) := by
  intro h
  have hd := congrArg String.data h
  simp only [SemanticChunker.idContent, List.map, pyJoin,
    show normPart IdPart.none = "_NULL_" from rfl,
    show normPart (IdPart.str "other_state") = "other_state" from rfl,
    String.data_append] at hd
  simp at hd

/-- The unified-generator hash inputs for an empty state and the state
`"other_state"` never coincide. -/
theorem fact_content_ne (d b y m : String) :
    UnifiedGen.idContent "" d b y m ≠ UnifiedGen.idContent "other_state" d b y m := by
  intro h
  have hd := congrArg String.data h
  simp only [UnifiedGen.idContent, String.data_append] at hd
  simp at hd

/-- While no sentinel row appears, the Annexure 3B scanner tags every record
with the current section key. -/
theorem annex3B_persist :
    ∀ (rows : List (List Value)) (cur : Option String),
      (∀ row ∈ rows, CentralEtl.isSentinel (CentralEtl.colAt row 1) = false) →
      ∀ r ∈ CentralEtl.extract_annexure3B rows cur,
        r.state = CentralEtl.stateOrUnknown cur := by
  intro rows
  induction rows with
  | nil => intro cur h r hr; simp [CentralEtl.extract_annexure3B] at hr
  | cons row rest ih =>
    intro cur h r hr
    have hs := h row (by simp)
    simp only [CentralEtl.extract_annexure3B, hs] at hr
    rw [if_neg (by simp)] at hr
    split at hr
    · exact ih cur (fun rw hw => h rw (by simp [hw])) r hr
    · split at hr
      · exact ih cur (fun rw hw => h rw (by simp [hw])) r hr
      · rcases List.mem_cons.mp hr with rfl | hmem
        · rfl
        · exact ih cur (fun rw hw => h rw (by simp [hw])) r hmem

/-- While no sentinel row appears, the Annexure II scanner tags every record
with the current section key. -/
theorem annex2_persist :
    ∀ (y : String) (rows : List (List Value)) (cur : Option String),
      (∀ row ∈ rows, CentralEtl.isSentinel (CentralEtl.colAt row 1) = false) →
      ∀ r ∈ CentralEtl.extract_annexure2 y rows cur,
        r.state = CentralEtl.stateOrUnknown cur := by
  intro y rows
  induction rows with
  | nil => intro cur h r hr; simp [CentralEtl.extract_annexure2] at hr
  | cons row rest ih =>
    intro cur h r hr
    have hs := h row (by simp)
    simp only [CentralEtl.extract_annexure2, hs] at hr
    rw [if_neg (by simp)] at hr
    split at hr
    · exact ih cur (fun rw hw => h rw (by simp [hw])) r hr
    · split at hr
      · exact ih cur (fun rw hw => h rw (by simp [hw])) r hr
      · rcases List.mem_cons.mp hr with rfl | hmem
        · rfl
        · exact ih cur (fun rw hw => h rw (by simp [hw])) r hmem

/-- Annexure 3B key capture: a sentinel row followed by a non-header name
row installs the trimmed name as section key and consumes both rows. -/
theorem annex3B_sentinel_step (m s : String) (rest : List (List Value)) (cur : Option String)
    (hm : strIn "DYNAMIC GROUND WATER" (pyUpper m) = true) (hm2 : m ≠ "")
    (hs1 : s ≠ "") (hs2 : pyStrip s ∉ (["S.No", "S.NO"] : List String))
    (hs3 : strIn "DYNAMIC GROUND WATER" (pyUpper s) = false) :
    CentralEtl.extract_annexure3B ([Value.str m] :: [Value.str s] :: rest) cur =
      CentralEtl.extract_annexure3B rest (Option.some (pyStrip s)) := by
  simp [CentralEtl.extract_annexure3B, CentralEtl.isSentinel, CentralEtl.colAt,
    CentralEtl.annex3BDistrictSkip, Value.truthy, Value.pyStr,
    hm, hm2, hs1, hs2, hs3]
  rfl

/-- Annexure 3B header guard: when the row after the sentinel is the
repeated header `"S.No"`, the section key is left unchanged. -/
theorem annex3B_sentinel_guard (m : String) (rest : List (List Value)) (cur : Option String)
    (hm : strIn "DYNAMIC GROUND WATER" (pyUpper m) = true) (hm2 : m ≠ "") :
    CentralEtl.extract_annexure3B ([Value.str m] :: [Value.str "S.No"] :: rest) cur =
      CentralEtl.extract_annexure3B rest cur := by
  simp [CentralEtl.extract_annexure3B, CentralEtl.isSentinel, CentralEtl.colAt,
    CentralEtl.annex3BDistrictSkip, Value.truthy, Value.pyStr, hm, hm2,
    show strIn "DYNAMIC GROUND WATER" (pyUpper "S.No") = false from by decide,
    show pyStrip "S.No" = "S.No" from by decide]

/-- Annexure II key capture has no header guard: any truthy next cell
(`"S.No"` included) becomes the section key. -/
theorem annex2_sentinel_step (y m s : String) (rest : List (List Value)) (cur : Option String)
    (hm : strIn "DYNAMIC GROUND WATER" (pyUpper m) = true) (hm2 : m ≠ "")
    (hs1 : s ≠ "") (hs3 : strIn "DYNAMIC GROUND WATER" (pyUpper s) = false) :
    CentralEtl.extract_annexure2 y ([Value.str m] :: [Value.str s] :: rest) cur =
      CentralEtl.extract_annexure2 y rest (Option.some (pyStrip s)) := by
  by_cases hmem : pyStrip s ∈ (["", "S.NO", "S.No", "1", "Total(Ham)", "Total(Bcm)"] : List String)
  · by_cases hrej : CentralEtl.serialRejects (Value.str s)
    · simp [CentralEtl.extract_annexure2, CentralEtl.isSentinel, CentralEtl.colAt,
        CentralEtl.annex2HeaderSkip, CentralEtl.annex2DistrictSkip, Value.truthy, Value.pyStr,
        hm, hm2, hs1, hs3, hmem, hrej]
      rfl
    · simp [CentralEtl.extract_annexure2, CentralEtl.isSentinel, CentralEtl.colAt,
        CentralEtl.annex2HeaderSkip, CentralEtl.annex2DistrictSkip, Value.truthy, Value.pyStr,
        hm, hm2, hs1, hs3, hmem, hrej]
      rfl
  · simp [CentralEtl.extract_annexure2, CentralEtl.isSentinel, CentralEtl.colAt,
      CentralEtl.annex2HeaderSkip, CentralEtl.annex2DistrictSkip, Value.truthy, Value.pyStr,
      hm, hm2, hs1, hs3, hmem]
    rfl

/-- Annexure 3B: a non-sentinel row whose serial cell is rejected yields no
record. -/
theorem annex3B_serial_skip (row : List Value) (rest : List (List Value)) (cur : Option String)
    (hs : CentralEtl.isSentinel (CentralEtl.colAt row 1) = false)
    (hr : CentralEtl.serialRejects (CentralEtl.colAt row 1) = true) :
    CentralEtl.extract_annexure3B (row :: rest) cur =
      CentralEtl.extract_annexure3B rest cur := by
  simp only [CentralEtl.extract_annexure3B, hs]
  rw [if_neg (by simp)]
  by_cases hd : CentralEtl.annex3BDistrictSkip (CentralEtl.colAt row 2)
  · rw [if_pos hd]
  · rw [if_neg hd, if_pos hr]

/-- Annexure 3B: a non-sentinel row whose district cell is blank or a
header/footer literal yields no record. -/
theorem annex3B_name_skip (row : List Value) (rest : List (List Value)) (cur : Option String)
    (hs : CentralEtl.isSentinel (CentralEtl.colAt row 1) = false)
    (hd : CentralEtl.annex3BDistrictSkip (CentralEtl.colAt row 2) = true) :
    CentralEtl.extract_annexure3B (row :: rest) cur =
      CentralEtl.extract_annexure3B rest cur := by
  simp only [CentralEtl.extract_annexure3B, hs]
  rw [if_neg (by simp), if_pos hd]

/-- Annexure 3B: a row passing both name and serial checks is decoded. -/
theorem annex3B_emit (row : List Value) (rest : List (List Value)) (cur : Option String)
    (hs : CentralEtl.isSentinel (CentralEtl.colAt row 1) = false)
    (hd : CentralEtl.annex3BDistrictSkip (CentralEtl.colAt row 2) = false)
    (hr : CentralEtl.serialRejects (CentralEtl.colAt row 1) = false) :
    CentralEtl.extract_annexure3B (row :: rest) cur =
      CentralEtl.mkAnnexure3BRecord row (CentralEtl.stateOrUnknown cur) ::
        CentralEtl.extract_annexure3B rest cur := by
  simp only [CentralEtl.extract_annexure3B, hs]
  rw [if_neg (by simp), if_neg (by simp [hd]), if_neg (by simp [hr])]

/-- Annexure II: a non-sentinel row whose district cell fails the name
check yields no record. -/
theorem annex2_name_skip (y : String) (row : List Value) (rest : List (List Value))
    (cur : Option String)
    (hs : CentralEtl.isSentinel (CentralEtl.colAt row 1) = false)
    (hd : CentralEtl.annex2DistrictSkip (CentralEtl.colAt row 2) = true) :
    CentralEtl.extract_annexure2 y (row :: rest) cur =
      CentralEtl.extract_annexure2 y rest cur := by
  simp only [CentralEtl.extract_annexure2, hs]
  rw [if_neg (by simp)]
  by_cases hh : CentralEtl.annex2HeaderSkip (CentralEtl.colAt row 1)
  · rw [if_pos hh]
  · rw [if_neg hh, if_pos hd]

/-- Annexure II: a row whose first cell is truthy and not one of the header
literals is decoded whenever the district is valid, with NO serial-number
check at all. -/
theorem annex2_emit_bypasses_serial (y : String) (row : List Value)
    (rest : List (List Value)) (cur : Option String)
    (hs : CentralEtl.isSentinel (CentralEtl.colAt row 1) = false)
    (ht : (CentralEtl.colAt row 1).truthy = true)
    (hm : pyStrip (CentralEtl.colAt row 1).pyStr ∉
      (["", "S.NO", "S.No", "1", "Total(Ham)", "Total(Bcm)"] : List String))
    (hd : CentralEtl.annex2DistrictSkip (CentralEtl.colAt row 2) = false) :
    CentralEtl.extract_annexure2 y (row :: rest) cur =
      CentralEtl.mkAnnexure2Record row (CentralEtl.stateOrUnknown cur) y ::
        CentralEtl.extract_annexure2 y rest cur := by
  simp only [CentralEtl.extract_annexure2, hs]
  rw [if_neg (by simp),
      if_neg (by simp [CentralEtl.annex2HeaderSkip, ht, hm]),
      if_neg (by simp [hd])]


/-! ## Claim theorems -/

/-- C1 (counterexample): the spec scenario fails on the state-report
decoder — a valid data row whose rainfall-total cell is the string
`"1,234.5"` decodes to `rainfall_mm.total = 0.0` (the default), not
`1234.5`, because `state_report_etl.safe_float` strips no thousands
separators. -/
theorem C1_counterexample :
    (StateReportEtl.parse_row_to_record c1Row "StateX" "2024-2025").map
      (fun o => o.map (fun r => r.rainfall_mm.total)) =
      PyResult.ok (Option.some (0 : ℚ)) ∧ (0 : ℚ) ≠ 1234.5 := by
  constructor
  · with_unfolding_all decide
  · norm_num

/-- C1 (amended): both `safe_float` versions return the supplied default on
`None` and on each of the missing-tokens; the central-ETL `safe_float`
additionally strips whitespace and thousands separators from string cells
and returns the parsed float; the state-report `safe_float` does no
separator stripping, so `"1,234.5"` returns the default there and the
scenario row decodes to `rainfall_mm.total = 0.0`. -/
theorem C1_amended :
    (∀ (d : ℚ) (v : Value),
      v ∈ ([Value.none, Value.str "", Value.str "-", Value.str "NA", Value.str "N/A",
            Value.str "NR", Value.str "--"] : List Value) →
      StateReportEtl.safe_float v d = d ∧ CentralEtl.safe_float v d = d) ∧
    (∀ (s : String) (d q : ℚ),
      pyFloatOfString (stripCommas (pyStrip s)) = Option.some (PyFloat.fin q) →
      stripCommas (pyStrip s) ∉ (["", "-", "NA", "N/A", "NR", "--"] : List String) →
      CentralEtl.safe_float (Value.str s) d = q) ∧
    (∀ d : ℚ, StateReportEtl.safe_float (Value.str "1,234.5") d = d) ∧
    (StateReportEtl.parse_row_to_record c1Row "StateX" "2024-2025").map
      (fun o => o.map (fun r => r.rainfall_mm.total)) =
      PyResult.ok (Option.some (0 : ℚ)) := by
  refine ⟨?_, ?_, ?_, ?_⟩
  · intro d v hv
    simp only [List.mem_cons, List.not_mem_nil, or_false] at hv
    rcases hv with rfl | rfl | rfl | rfl | rfl | rfl | rfl <;>
      exact ⟨state_safe_float_default _ _ (by decide), rfl⟩
  · intro s d q h1 h2
    simp only [CentralEtl.safe_float]
    rw [if_neg h2, h1]
    rfl
  · intro d
    exact state_safe_float_default _ _ (by decide)
  · with_unfolding_all decide

/-- C1 (witness): the amended theorem applied at the concrete inputs
`"1,234.5"` (central: parses to `1234.5`) and `"NA"` (both: default). -/
theorem C1_witness :
    CentralEtl.safe_float (Value.str "1,234.5") 0 = 2469 / 2 ∧
    (StateReportEtl.safe_float (Value.str "NA") 3 = 3 ∧
     CentralEtl.safe_float (Value.str "NA") 3 = 3) :=
  ⟨C1_amended.2.1 "1,234.5" 0 (2469 / 2) (by with_unfolding_all decide) (by decide),
   C1_amended.1 3 (Value.str "NA") (by decide)⟩

/-- C2 (counterexample): the fact-id assigner (12 hex characters) applies
NO `_NULL_` placeholder — empty parts are joined as-is — while the chunk-id
assigner does, so the claim that the identity assigner always replaces
None/empty parts with `_NULL_` (for both the 16- and the 12-character ids)
is false. -/
theorem C2_counterexample :
    UnifiedGen.idContent "StateA" "" "" "2024-2025" "m" = "StateA|||2024-2025|m" ∧
    strIn "_NULL_" (UnifiedGen.idContent "StateA" "" "" "2024-2025" "m") = false ∧
    strIn "_NULL_"
      (SemanticChunker.idContent
        [IdPart.str "StateA", IdPart.str "", IdPart.str "",
         IdPart.str "2024-2025", IdPart.str "m"]) = true := by
  refine ⟨rfl, by decide, by decide⟩

/-- C2 (amended): the chunk-id assigner replaces each None/empty part with
`_NULL_` before joining with `|` and hashing (MD5 truncated to 16 hex
characters); the fact-id assigner (12 hex characters) joins its five parts
raw, a missing district/block arriving as `""`. In both, the hash input for
a missing leading part differs from the hash input for `"other_state"` in
that position for every remaining-part tuple, and at concrete inputs the
truncated ids themselves differ. -/
theorem C2_amended :
    (∀ (p : IdPart) (rest : List IdPart), p = IdPart.none ∨ p = IdPart.str "" →
      SemanticChunker.idContent (p :: rest) = pyJoin "|" ("_NULL_" :: rest.map normPart)) ∧
    (∀ (x : String) (rest : List IdPart),
      SemanticChunker.idContent (IdPart.none :: IdPart.str x :: rest) ≠
        SemanticChunker.idContent (IdPart.str "other_state" :: IdPart.str x :: rest)) ∧
    (∀ d b y m : String,
      UnifiedGen.idContent "" d b y m ≠ UnifiedGen.idContent "other_state" d b y m) ∧
    (∀ parts : List IdPart, (SemanticChunker.generate_id parts).length = 16) ∧
    (∀ a b c d e : String, (UnifiedGen.generate_id a b c d e).length = 12) ∧
    SemanticChunker.generate_id [IdPart.none, IdPart.str "x"] ≠
      SemanticChunker.generate_id [IdPart.str "other_state", IdPart.str "x"] ∧
    UnifiedGen.generate_id "" "x" "b" "2024-2025" "m" ≠
      UnifiedGen.generate_id "other_state" "x" "b" "2024-2025" "m" := by
  refine ⟨chunk_content_placeholder, chunk_content_ne, fact_content_ne,
    chunk_id_length, fact_id_length, ?_, ?_⟩
  · with_unfolding_all decide
  · with_unfolding_all decide

/-- C2 (witness): the amended theorem applied at concrete parts. -/
theorem C2_witness :
    SemanticChunker.idContent [IdPart.none, IdPart.str "x"] =
      pyJoin "|" ("_NULL_" :: [IdPart.str "x"].map normPart) ∧
    SemanticChunker.idContent [IdPart.none, IdPart.str "x"] ≠
      SemanticChunker.idContent [IdPart.str "other_state", IdPart.str "x"] :=
  ⟨C2_amended.1 IdPart.none [IdPart.str "x"] (Or.inl rfl),
   C2_amended.2.1 "x" []⟩

/-- C3 (counterexample): in the Annexure II scanner the row following a
sentinel becomes the section key even when it is the repeated column header
`"S.No"` — the subsequent data row is tagged with state `"S.No"` — so the
claim that every sectioned-sheet traversal guards against header-like key
rows is false. -/
theorem C3_counterexample :
    (CentralEtl.extract_annexure2 "2024-2025" [sentinelRow, headerRow, dataRow]
      Option.none).map (fun r => r.state) = ["S.No"] := by
  with_unfolding_all decide

/-- C3 (amended): in the Annexure 3 scanners (modelled by sheet 3B) the
cell below the sentinel becomes the section key unless it is `"S.No"` /
`"S.NO"`, and sentinel and name rows are consumed; the key then tags every
subsequent data row until the next sentinel. The Annexure II scanner has no
such guard: any truthy next cell (including `"S.No"`) becomes the key. -/
theorem C3_amended :
    (∀ (m s : String) (rest : List (List Value)) (cur : Option String),
      strIn "DYNAMIC GROUND WATER" (pyUpper m) = true → m ≠ "" →
      s ≠ "" → pyStrip s ∉ (["S.No", "S.NO"] : List String) →
      strIn "DYNAMIC GROUND WATER" (pyUpper s) = false →
      CentralEtl.extract_annexure3B ([Value.str m] :: [Value.str s] :: rest) cur =
        CentralEtl.extract_annexure3B rest (Option.some (pyStrip s))) ∧
    (∀ (m : String) (rest : List (List Value)) (cur : Option String),
      strIn "DYNAMIC GROUND WATER" (pyUpper m) = true → m ≠ "" →
      CentralEtl.extract_annexure3B ([Value.str m] :: [Value.str "S.No"] :: rest) cur =
        CentralEtl.extract_annexure3B rest cur) ∧
    (∀ (rows : List (List Value)) (cur : Option String),
      (∀ row ∈ rows, CentralEtl.isSentinel (CentralEtl.colAt row 1) = false) →
      ∀ r ∈ CentralEtl.extract_annexure3B rows cur,
        r.state = CentralEtl.stateOrUnknown cur) ∧
    (∀ (y m s : String) (rest : List (List Value)) (cur : Option String),
      strIn "DYNAMIC GROUND WATER" (pyUpper m) = true → m ≠ "" →
      s ≠ "" → strIn "DYNAMIC GROUND WATER" (pyUpper s) = false →
      CentralEtl.extract_annexure2 y ([Value.str m] :: [Value.str s] :: rest) cur =
        CentralEtl.extract_annexure2 y rest (Option.some (pyStrip s))) ∧
    (∀ (y : String) (rows : List (List Value)) (cur : Option String),
      (∀ row ∈ rows, CentralEtl.isSentinel (CentralEtl.colAt row 1) = false) →
      ∀ r ∈ CentralEtl.extract_annexure2 y rows cur,
        r.state = CentralEtl.stateOrUnknown cur) :=
  ⟨annex3B_sentinel_step, annex3B_sentinel_guard, annex3B_persist,
   annex2_sentinel_step, annex2_persist⟩

/-- C3 (witness): the amended theorem applied at a concrete sentinel and
name row (`"StateX"`), and at the guardless Annexure II capture of
`"S.No"`. -/
theorem C3_witness :
    CentralEtl.extract_annexure3B
        [[Value.str "DYNAMIC GROUND WATER RESOURCES OF INDIA"], [Value.str "StateX"]]
        Option.none =
      CentralEtl.extract_annexure3B [] (Option.some (pyStrip "StateX")) ∧
    CentralEtl.extract_annexure2 "2024-2025"
        [[Value.str "DYNAMIC GROUND WATER RESOURCES OF INDIA"], [Value.str "S.No"]]
        Option.none =
      CentralEtl.extract_annexure2 "2024-2025" [] (Option.some (pyStrip "S.No")) :=
  ⟨C3_amended.1 _ "StateX" [] Option.none (by decide) (by decide) (by decide)
      (by decide) (by decide),
   C3_amended.2.2.2.1 "2024-2025" _ "S.No" [] Option.none (by decide) (by decide)
      (by decide) (by decide)⟩

/-- C4 (counterexample): the Annexure II scanner decodes a row whose
serial-number cell (`"abc"`) fails to parse as a number `≥ 1`, because its
serial check only runs when the first cell is blank or a header literal —
so the claim that every sectioned-table row with an unparseable serial is
skipped is false. -/
theorem C4_counterexample :
    CentralEtl.serialRejects (Value.str "abc") = true ∧
    (CentralEtl.extract_annexure2 "2024-2025" [badSerialRow] Option.none).map
      (fun r => (r.state, r.district, r.serial_no)) = [("Unknown", "DistrictY", 0)] := by
  refine ⟨by decide, by with_unfolding_all decide⟩

/-- C4 (amended): in the Annexure 3 scanners a row is skipped whenever its
serial cell is falsy, `float()` fails on it, or the parsed value compares
`< 1` under IEEE semantics — so a serial cell parsing to `nan` or `+inf`
is NOT noise (every comparison with `nan` is `False`) and a PEP-515 cell
such as `"1_000"` parses to `1000.0 ≥ 1` — or its district cell is blank
or a header/footer literal, and decoded otherwise; in the Annexure II
scanner the district check always applies, but the serial check runs only
when the first cell is blank or one of the header literals, so a row with a
truthy, non-literal, unparseable serial and a valid district is still
decoded (with `serial_no = 0.0`). -/
theorem C4_amended :
    (∀ v : Value, CentralEtl.serialRejects v = true ↔
      (v.truthy = false ∨ pyFloat v = Option.none ∨
       ∃ f, pyFloat v = Option.some f ∧ f.ltOne = true)) ∧
    (CentralEtl.serialRejects (Value.str "abc") = true ∧
     CentralEtl.serialRejects (Value.str "0.5") = true ∧
     CentralEtl.serialRejects (Value.str "-inf") = true ∧
     CentralEtl.serialRejects (Value.str "nan") = false ∧
     CentralEtl.serialRejects (Value.str "inf") = false ∧
     CentralEtl.serialRejects (Value.str "1_000") = false) ∧
    (∀ (row : List Value) (rest : List (List Value)) (cur : Option String),
      CentralEtl.isSentinel (CentralEtl.colAt row 1) = false →
      CentralEtl.serialRejects (CentralEtl.colAt row 1) = true →
      CentralEtl.extract_annexure3B (row :: rest) cur =
        CentralEtl.extract_annexure3B rest cur) ∧
    (∀ (row : List Value) (rest : List (List Value)) (cur : Option String),
      CentralEtl.isSentinel (CentralEtl.colAt row 1) = false →
      CentralEtl.annex3BDistrictSkip (CentralEtl.colAt row 2) = true →
      CentralEtl.extract_annexure3B (row :: rest) cur =
        CentralEtl.extract_annexure3B rest cur) ∧
    (∀ (row : List Value) (rest : List (List Value)) (cur : Option String),
      CentralEtl.isSentinel (CentralEtl.colAt row 1) = false →
      CentralEtl.annex3BDistrictSkip (CentralEtl.colAt row 2) = false →
      CentralEtl.serialRejects (CentralEtl.colAt row 1) = false →
      CentralEtl.extract_annexure3B (row :: rest) cur =
        CentralEtl.mkAnnexure3BRecord row (CentralEtl.stateOrUnknown cur) ::
          CentralEtl.extract_annexure3B rest cur) ∧
    (∀ (y : String) (row : List Value) (rest : List (List Value)) (cur : Option String),
      CentralEtl.isSentinel (CentralEtl.colAt row 1) = false →
      CentralEtl.annex2DistrictSkip (CentralEtl.colAt row 2) = true →
      CentralEtl.extract_annexure2 y (row :: rest) cur =
        CentralEtl.extract_annexure2 y rest cur) ∧
    (∀ (y : String) (row : List Value) (rest : List (List Value)) (cur : Option String),
      CentralEtl.isSentinel (CentralEtl.colAt row 1) = false →
      (CentralEtl.colAt row 1).truthy = true →
      pyStrip (CentralEtl.colAt row 1).pyStr ∉
        (["", "S.NO", "S.No", "1", "Total(Ham)", "Total(Bcm)"] : List String) →
      CentralEtl.annex2DistrictSkip (CentralEtl.colAt row 2) = false →
      CentralEtl.extract_annexure2 y (row :: rest) cur =
        CentralEtl.mkAnnexure2Record row (CentralEtl.stateOrUnknown cur) y ::
          CentralEtl.extract_annexure2 y rest cur) := by
  refine ⟨?_, by with_unfolding_all decide, annex3B_serial_skip, annex3B_name_skip,
    annex3B_emit, annex2_name_skip, annex2_emit_bypasses_serial⟩
  intro v
  unfold CentralEtl.serialRejects
  by_cases ht : v.truthy
  · cases hf : pyFloat v with
    | none => simp [ht, hf]
    | some f => cases hlt : f.ltOne <;> simp [ht, hf, hlt]
  · simp [ht]

/-- C4 (witness): the amended theorem applied at concrete rows — the
Annexure 3B scanner skips the unparseable `"abc"` serial and the `"-inf"`
serial, decodes the `"nan"` serial, and the Annexure II scanner decodes the
`"abc"` serial without any serial check. -/
theorem C4_witness :
    CentralEtl.extract_annexure3B [badSerialRow] Option.none =
      CentralEtl.extract_annexure3B [] Option.none ∧
    CentralEtl.extract_annexure3B [negInfSerialRow] Option.none =
      CentralEtl.extract_annexure3B [] Option.none ∧
    CentralEtl.extract_annexure3B [nanSerialDataRow] Option.none =
      CentralEtl.mkAnnexure3BRecord nanSerialDataRow
          (CentralEtl.stateOrUnknown Option.none) ::
        CentralEtl.extract_annexure3B [] Option.none ∧
    CentralEtl.extract_annexure2 "2024-2025" [badSerialRow] Option.none =
      CentralEtl.mkAnnexure2Record badSerialRow
          (CentralEtl.stateOrUnknown Option.none) "2024-2025" ::
        CentralEtl.extract_annexure2 "2024-2025" [] Option.none :=
  ⟨C4_amended.2.2.1 badSerialRow [] Option.none (by decide) (by decide),
   C4_amended.2.2.1 negInfSerialRow [] Option.none (by decide) (by decide),
   C4_amended.2.2.2.2.1 nanSerialDataRow [] Option.none (by decide) (by decide) (by decide),
   C4_amended.2.2.2.2.2.2 "2024-2025" badSerialRow [] Option.none (by decide) (by decide)
      (by decide) (by decide)⟩


/-- C5 (confirmed): the metric-fact normalizer emits no fact for a zero
numeric value unless the metric name contains an always-keep marker
(`over_exploited_count`, `critical_count`, `saline_count`,
`stage_of_extraction`, `categorization`); always-keep zeros and non-blank
string values (such as a `categorization` status) are never suppressed. -/
theorem C5_zero_suppression :
    (∀ (state : String) (district block : Option String)
       (year metric unit category source source_type metric_desc : String)
       (categorization : Option String),
      UnifiedGen.keepsZero metric = false →
      UnifiedGen.create_record state district block year metric (Value.num 0)
        unit category source source_type metric_desc categorization = Option.none) ∧
    (∀ (state : String) (district block : Option String)
       (year metric unit category source source_type metric_desc : String)
       (categorization : Option String),
      UnifiedGen.keepsZero metric = true →
      (UnifiedGen.create_record state district block year metric (Value.num 0)
        unit category source source_type metric_desc categorization).isSome = true) ∧
    (∀ (state : String) (district block : Option String)
       (year metric unit category source source_type metric_desc : String)
       (categorization : Option String) (s : String),
      pyStrip s ≠ "" →
      (UnifiedGen.create_record state district block year metric (Value.str s)
        unit category source source_type metric_desc categorization).isSome = true) := by
  refine ⟨?_, ?_, ?_⟩ <;> intros
  · simp [UnifiedGen.create_record, UnifiedGen.Value.strippedEmpty,
      UnifiedGen.Value.isZeroNum, *]
  · simp [UnifiedGen.create_record, UnifiedGen.Value.strippedEmpty,
      UnifiedGen.Value.isZeroNum, *]
  · rename_i s hs
    have hne : s ≠ "" := by
      intro h; exact hs (by rw [h]; rfl)
    simp [UnifiedGen.create_record, UnifiedGen.Value.strippedEmpty,
      UnifiedGen.Value.isZeroNum, hne, hs]

/-- C5 (witness): a `gw_extraction_total_ham` fact with value `0` is
suppressed; a `categorization_status` fact with the string `"critical"` and
an `over_exploited_count` fact with value `0` are emitted. -/
theorem C5_witness :
    UnifiedGen.create_record "StateX" (Option.some "DistrictY") (Option.some "BlockZ")
      "2024-2025" "gw_extraction_total_ham" (Value.num 0) "ham" "extraction" "src"
      "state_report" "total groundwater extraction" (Option.some "critical") = Option.none ∧
    (UnifiedGen.create_record "StateX" (Option.some "DistrictY") (Option.some "BlockZ")
      "2024-2025" "categorization_status" (Value.str "critical") "" "status" "src"
      "state_report" "groundwater status category" (Option.some "critical")).isSome = true ∧
    (UnifiedGen.create_record "StateX" Option.none Option.none "2024-2025"
      "over_exploited_count" (Value.num 0) "count" "status" "src" "attribute_summary"
      "over-exploited units" Option.none).isSome = true :=
  ⟨C5_zero_suppression.1 _ _ _ _ _ _ _ _ _ _ _ (by decide),
   C5_zero_suppression.2.2 _ _ _ _ _ _ _ _ _ _ _ "critical" (by decide),
   C5_zero_suppression.2.1 _ _ _ _ _ _ _ _ _ _ _ (by decide)⟩

/-- C6 (confirmed): the chunk magnitude formatter renders values of modulus
at least one million as the two-decimal quotient by `1e6` followed by `M`,
values of modulus at least one thousand as the two-decimal quotient by
`1e3` followed by `K`, smaller integral values without decimals, and any
other value in two-decimal fixed point; the chunk text of a block whose
annual groundwater recharge total is `1500000.0` contains `"1.50M"`. -/
theorem C6_magnitude_format :
    (∀ q : ℚ,
      (1000000 ≤ |q| →
        SemanticChunker.format_value (Option.some q) = fmt2 (q / 1000000) ++ "M") ∧
      (|q| < 1000000 → 1000 ≤ |q| →
        SemanticChunker.format_value (Option.some q) = fmt2 (q / 1000) ++ "K") ∧
      (|q| < 1000 → q.den = 1 →
        SemanticChunker.format_value (Option.some q) = toString q.num) ∧
      (|q| < 1000 → q.den ≠ 1 →
        SemanticChunker.format_value (Option.some q) = fmt2 q)) ∧
    SemanticChunker.format_value (Option.some 1500000) = "1.50M" ∧
    c6Chunk.map (fun c => strIn "1.50M" c.text) = Option.some true := by
  refine ⟨?_, ?_, ?_⟩
  · intro q
    refine ⟨?_, ?_, ?_, ?_⟩
    · intro h
      simp only [SemanticChunker.format_value]
      rw [if_pos h]
    · intro h1 h2
      simp only [SemanticChunker.format_value]
      rw [if_neg (not_le.mpr h1), if_pos h2]
    · intro h1 h2
      simp only [SemanticChunker.format_value]
      rw [if_neg (not_le.mpr (lt_of_lt_of_le h1 (by norm_num))),
        if_neg (not_le.mpr h1), if_pos h2]
    · intro h1 h2
      simp only [SemanticChunker.format_value]
      rw [if_neg (not_le.mpr (lt_of_lt_of_le h1 (by norm_num))),
        if_neg (not_le.mpr h1), if_neg h2]
  · with_unfolding_all decide
  · with_unfolding_all decide

/-- C6 (witness): the characterization applied at `1500000`. -/
theorem C6_witness :
    SemanticChunker.format_value (Option.some 1500000) =
      fmt2 ((1500000 : ℚ) / 1000000) ++ "M" :=
  (C6_magnitude_format.1 1500000).1 (by norm_num)

/-- C7 (counterexample): the state-report decoder is NOT total — on a
ten-cell row whose serial cell is the string `"nan"`, `float("nan")`
succeeds inside the `try`, `bool(nan)` is truthy, and the unguarded
`int(nan)` in the record literal raises an uncaught `ValueError` which
propagates through `extract_state_report` (an `"inf"` serial raises
`OverflowError` the same way). -/
theorem C7_counterexample :
    StateReportEtl.parse_row_to_record nanSerialRow "StateX" "2024-2025" = PyResult.raise ∧
    StateReportEtl.extract_state_report [nanSerialRow] "StateX" "2024-2025" =
      PyResult.raise ∧
    pyFloatOfString "nan" = Option.some PyFloat.nan ∧
    pyFloatOfString "inf" = Option.some (PyFloat.inf false) := by
  refine ⟨?_, ?_, ?_, ?_⟩ <;> with_unfolding_all decide

/-- C7 (amended): cell-level malformation does degrade locally (a failed
`float()` yields the coercion default, cells beyond the row yield the zero
quadruple/pair), and the row-level result is `None` exactly for short
rows, falsy serial cells, serial cells on which `float()` raises, and
`"Total"` rows; but the decoder is not total: it raises (uncaught) exactly
when a well-formed-so-far row carries a truthy serial on which `int()`
raises, i.e. a serial that `float()`-parses to `nan` or `±inf`, and that
exception aborts the whole extraction. A PEP-515 serial such as `"1_000"`
is accepted by `float()` and decodes to a record, not to `None`. -/
theorem C7_amended :
    (∀ (v : Value) (d : ℚ), pyFloat v = Option.none → StateReportEtl.safe_float v d = d) ∧
    (∀ (row : List Value) (start : ℕ), row.length ≤ start →
      StateReportEtl.get_cnc_pq row start = ⟨0, 0, 0, 0⟩) ∧
    (∀ (row : List Value) (start : ℕ), row.length ≤ start →
      StateReportEtl.get_fresh_saline row start = ⟨0, 0⟩) ∧
    (∀ (row : List Value) (s y : String),
      StateReportEtl.parse_row_to_record row s y = PyResult.raise ↔
        (¬ row.length < 10 ∧ (StateReportEtl.cellAt row 0).truthy = true ∧
         ∃ f, pyFloat (StateReportEtl.cellAt row 0) = Option.some f ∧
           StateReportEtl.safe_str (StateReportEtl.cellAt row 0) ≠ Option.some "Total" ∧
           f.truthy = true ∧ f.toInt = Option.none)) ∧
    (∀ (row : List Value) (s y : String),
      StateReportEtl.parse_row_to_record row s y = PyResult.ok Option.none ↔
        (row.length < 10 ∨ (StateReportEtl.cellAt row 0).truthy = false ∨
         pyFloat (StateReportEtl.cellAt row 0) = Option.none ∨
         StateReportEtl.safe_str (StateReportEtl.cellAt row 0) = Option.some "Total")) ∧
    (∀ (row : List Value) (s y : String) (r : StateReportEtl.StateRecord),
      StateReportEtl.parse_row_to_record row s y = PyResult.ok (Option.some r) →
        r.rainfall_mm.total = StateReportEtl.safe_float (StateReportEtl.cellAt row 8) 0 ∧
        r.categorization.overall = StateReportEtl.safe_str (StateReportEtl.cellAt row 118)) ∧
    (∀ (rows : List (List Value)) (s y : String) (row : List Value),
      row ∈ rows → StateReportEtl.parse_row_to_record row s y = PyResult.raise →
      StateReportEtl.extract_state_report rows s y = PyResult.raise) ∧
    (StateReportEtl.parse_row_to_record underscoreRow "StateX" "2024-2025").map
      (fun o => o.map (fun r => r.serial_no)) =
      PyResult.ok (Option.some (Option.some (1000 : ℤ))) := by
  refine ⟨state_safe_float_default, ?_, ?_, ?_, ?_, ?_, ?_, ?_⟩
  · intro row start h
    unfold StateReportEtl.get_cnc_pq
    rw [cellAt_out_of_range row start h, cellAt_out_of_range row (start + 1) (by omega),
        cellAt_out_of_range row (start + 2) (by omega),
        cellAt_out_of_range row (start + 3) (by omega)]
    rfl
  · intro row start h
    unfold StateReportEtl.get_fresh_saline
    rw [cellAt_out_of_range row start h, cellAt_out_of_range row (start + 1) (by omega)]
    rfl
  · intro row s y
    by_cases h1 : row.length < 10
    · simp [StateReportEtl.parse_row_to_record, h1]
    · by_cases h2 : (StateReportEtl.cellAt row 0).truthy
      · cases hf : pyFloat (StateReportEtl.cellAt row 0) with
        | none => simp [StateReportEtl.parse_row_to_record, h1, h2, hf]
        | some f =>
          by_cases ht : StateReportEtl.safe_str (StateReportEtl.cellAt row 0) =
            Option.some "Total"
          · simp [StateReportEtl.parse_row_to_record, h1, h2, hf, ht]
          · by_cases htr : f.truthy
            · cases hi : f.toInt with
              | none => simp [StateReportEtl.parse_row_to_record, h1, h2, hf, ht, htr, hi]
              | some n => simp [StateReportEtl.parse_row_to_record, h1, h2, hf, ht, htr, hi]
            · simp [StateReportEtl.parse_row_to_record, h1, h2, hf, ht, htr]
      · simp [StateReportEtl.parse_row_to_record, h1, h2]
  · intro row s y
    by_cases h1 : row.length < 10
    · simp [StateReportEtl.parse_row_to_record, h1]
    · by_cases h2 : (StateReportEtl.cellAt row 0).truthy
      · cases hf : pyFloat (StateReportEtl.cellAt row 0) with
        | none => simp [StateReportEtl.parse_row_to_record, h1, h2, hf]
        | some f =>
          by_cases ht : StateReportEtl.safe_str (StateReportEtl.cellAt row 0) =
            Option.some "Total"
          · simp [StateReportEtl.parse_row_to_record, h1, h2, hf, ht]
          · by_cases htr : f.truthy
            · cases hi : f.toInt with
              | none => simp [StateReportEtl.parse_row_to_record, h1, h2, hf, ht, htr, hi]
              | some n => simp [StateReportEtl.parse_row_to_record, h1, h2, hf, ht, htr, hi]
            · simp [StateReportEtl.parse_row_to_record, h1, h2, hf, ht, htr]
      · simp [StateReportEtl.parse_row_to_record, h1, h2]
  · intro row s y r h
    unfold StateReportEtl.parse_row_to_record at h
    split at h
    · exact absurd h (by simp)
    · split at h
      · exact absurd h (by simp)
      · split at h
        · exact absurd h (by simp)
        · split at h
          · exact absurd h (by simp)
          · split at h
            · split at h
              · exact absurd h (by simp)
              · have := (Option.some.injEq _ _).mp ((PyResult.ok.injEq _ _).mp h)
                subst this
                exact ⟨rfl, rfl⟩
            · have := (Option.some.injEq _ _).mp ((PyResult.ok.injEq _ _).mp h)
              subst this
              exact ⟨rfl, rfl⟩
  · intro rows s y row
    induction rows with
    | nil => intro hmem _; simp at hmem
    | cons r0 rest ih =>
      intro hmem hraise
      rcases List.mem_cons.mp hmem with rfl | hmem2
      · simp [StateReportEtl.extract_state_report, hraise]
      · have htail := ih hmem2 hraise
        cases hp : StateReportEtl.parse_row_to_record r0 s y with
        | raise => simp [StateReportEtl.extract_state_report, hp]
        | ok o =>
          cases o with
          | none => simp [StateReportEtl.extract_state_report, hp, htail]
          | some rec => simp [StateReportEtl.extract_state_report, hp, htail]
  · with_unfolding_all decide

/-- C7 (witness): the characterization applied at the empty row (short →
`None`), a garbage cell (default), and the `"nan"`-serial row (raise). -/
theorem C7_witness :
    StateReportEtl.parse_row_to_record [] "s" "y" = PyResult.ok Option.none ∧
    StateReportEtl.safe_float (Value.str "garbage") 5 = 5 ∧
    StateReportEtl.parse_row_to_record nanSerialRow "s" "y" = PyResult.raise :=
  ⟨(C7_amended.2.2.2.2.1 [] "s" "y").mpr (Or.inl (by decide)),
   C7_amended.1 _ 5 (by decide),
   (C7_amended.2.2.2.1 nanSerialRow "s" "y").mpr
     ⟨by decide, by decide, PyFloat.nan, by decide, by decide, by decide, by decide⟩⟩

/-- C8 (counterexample): the central-ETL `safe_str` does NOT map the
literal string `"none"` to the default — it returns `"none"` — so the
claim that the string coercion maps `"none"` (case-insensitively) to the
default/null result is false there. -/
theorem C8_counterexample :
    CentralEtl.safe_str (Value.str "none") "" = "none" ∧ ("none" : String) ≠ "" := by
  exact ⟨rfl, by decide⟩

/-- C8 (amended): the state-report `safe_str` maps `None` and every case
variant of the exact literal `"none"` (tested before trimming) to `None`
and trims the returned value; the central-ETL `safe_str` trims and maps
only `None` to the default — the literal `"none"` passes through. -/
theorem C8_amended :
    (StateReportEtl.safe_str Value.none = Option.none) ∧
    (∀ s : String, pyLower s = "none" →
      StateReportEtl.safe_str (Value.str s) = Option.none) ∧
    (∀ s : String, pyLower s ≠ "none" → s ≠ "" →
      StateReportEtl.safe_str (Value.str s) = Option.some (pyStrip s)) ∧
    (∀ d : String, CentralEtl.safe_str Value.none d = d) ∧
    (∀ s d : String, CentralEtl.safe_str (Value.str s) d = pyStrip s) := by
  refine ⟨rfl, ?_, ?_, fun d => rfl, fun s d => rfl⟩
  · intro s hs
    simp [StateReportEtl.safe_str, Value.pyStr, hs]
  · intro s h1 h2
    simp [StateReportEtl.safe_str, Value.pyStr, h1, h2]

/-- C8 (witness): the amended theorem applied at `"NoNe"` (mapped to
`None`) and `" x "` (trimmed). -/
theorem C8_witness :
    StateReportEtl.safe_str (Value.str "NoNe") = Option.none ∧
    StateReportEtl.safe_str (Value.str " x ") = Option.some (pyStrip " x ") :=
  ⟨C8_amended.2.1 "NoNe" (by decide), C8_amended.2.2.1 " x " (by decide) (by decide)⟩

/-- C9 (confirmed): every record in a list returned by a non-raising run of
the state-report extractor has a present, non-empty district — parses with
a missing or blank district are dropped before being appended (and a
raising run returns no records at all). -/
theorem C9_district_invariant :
    ∀ (rows : List (List Value)) (s y : String)
      (recs : List StateReportEtl.StateRecord) (r : StateReportEtl.StateRecord),
      StateReportEtl.extract_state_report rows s y = PyResult.ok recs →
      r ∈ recs →
      ∃ d, r.district = Option.some d ∧ d ≠ "" := by
  intro rows s y
  induction rows with
  | nil =>
    intro recs r hE hr
    simp only [StateReportEtl.extract_state_report, PyResult.ok.injEq] at hE
    subst hE
    simp at hr
  | cons row0 rest ih =>
    intro recs r hE hr
    cases hp : StateReportEtl.parse_row_to_record row0 s y with
    | raise =>
      simp only [StateReportEtl.extract_state_report, hp] at hE
      exact absurd hE (by simp)
    | ok o =>
      cases o with
      | none =>
        simp only [StateReportEtl.extract_state_report, hp] at hE
        exact ih recs r hE hr
      | some rec0 =>
        simp only [StateReportEtl.extract_state_report, hp] at hE
        cases hT : StateReportEtl.extract_state_report rest s y with
        | raise => simp [hT] at hE
        | ok recs2 =>
          simp only [hT, PyResult.ok.injEq] at hE
          by_cases hd : StateReportEtl.districtTruthy rec0
          · rw [if_pos hd] at hE
            subst hE
            rcases List.mem_cons.mp hr with rfl | hmem
            · unfold StateReportEtl.districtTruthy at hd
              cases hdist : r.district with
              | none => rw [hdist] at hd; simp at hd
              | some d =>
                rw [hdist] at hd
                simp at hd
                exact ⟨d, rfl, hd⟩
            · exact ih recs2 r hT hmem
          · rw [if_neg hd] at hE
            subst hE
            exact ih recs2 r hT hr

/-- C9 (witness): the invariant applied to the record extracted from a
concrete valid row (a non-raising run). -/
theorem C9_witness :
    ∃ d, (((StateReportEtl.extract_state_report [c9Row] "StateX" "2024-2025").okD []).head
        (by with_unfolding_all decide)).district = Option.some d ∧ d ≠ "" :=
  C9_district_invariant [c9Row] "StateX" "2024-2025" _ _
    (by with_unfolding_all decide) (List.head_mem _)

/-- C10 (confirmed): the id of a metric fact depends only on the five key
fields (state, district-or-empty, block-or-empty, year, metric) — two
`create_record` calls agreeing on those but differing anywhere else
produce records with identical 12-hex-character ids. -/
theorem C10_fact_id_key :
    ∀ (state year metric : String) (d1 b1 d2 b2 : Option String)
      (v1 v2 : Value) (u1 u2 c1 c2 s1 s2 st1 st2 md1 md2 : String)
      (cz1 cz2 : Option String) (r1 r2 : UnifiedGen.URecord),
      d1.getD "" = d2.getD "" → b1.getD "" = b2.getD "" →
      UnifiedGen.create_record state d1 b1 year metric v1 u1 c1 s1 st1 md1 cz1 =
        Option.some r1 →
      UnifiedGen.create_record state d2 b2 year metric v2 u2 c2 s2 st2 md2 cz2 =
        Option.some r2 →
      r1.id = r2.id ∧ r1.id.length = 12 := by
  intro state year metric d1 b1 d2 b2 v1 v2 u1 u2 c1 c2 s1 s2 st1 st2 md1 md2 cz1 cz2
    r1 r2 hd hb h1 h2
  simp only [UnifiedGen.create_record] at h1 h2
  split at h1
  · exact absurd h1 (by simp)
  · split at h1
    · exact absurd h1 (by simp)
    · split at h2
      · exact absurd h2 (by simp)
      · split at h2
        · exact absurd h2 (by simp)
        · have e1 := (Option.some.injEq _ _).mp h1
          have e2 := (Option.some.injEq _ _).mp h2
          subst e1; subst e2
          refine ⟨?_, fact_id_length _ _ _ _ _⟩
          show UnifiedGen.generate_id state (d1.getD "") (b1.getD "") year metric =
            UnifiedGen.generate_id state (d2.getD "") (b2.getD "") year metric
          rw [hd, hb]

/-- C10 (witness): two calls sharing the five key fields but differing in
value, unit, category, source, source type, description and categorization
yield the same 12-character id. -/
theorem C10_witness :
    (((UnifiedGen.create_record "StateX" (Option.some "DistrictY") (Option.some "BlockZ")
        "2024-2025" "rainfall_total_mm" (Value.num 5) "mm" "rainfall" "srcA" "state_report"
        "total rainfall" (Option.some "safe")).get (by with_unfolding_all decide)).id =
      ((UnifiedGen.create_record "StateX" (Option.some "DistrictY") (Option.some "BlockZ")
        "2024-2025" "rainfall_total_mm" (Value.str "7.5") "mm" "rain2" "srcB" "central_report"
        "other description" Option.none).get (by with_unfolding_all decide)).id) ∧
    (((UnifiedGen.create_record "StateX" (Option.some "DistrictY") (Option.some "BlockZ")
        "2024-2025" "rainfall_total_mm" (Value.num 5) "mm" "rainfall" "srcA" "state_report"
        "total rainfall" (Option.some "safe")).get
          (by with_unfolding_all decide)).id).length = 12 :=
  C10_fact_id_key "StateX" "2024-2025" "rainfall_total_mm" _ _ _ _ _ _ _ _ _ _ _ _ _ _ _ _
    _ _ _ _ rfl rfl (Option.some_get _).symm (Option.some_get _).symm

end GW
